import Mathlib

/-!
Verification of the BGP session engine (bgp.c) of the BIRD routing daemon.

The development shallowly embeds the connection/peer state machine of
`bgp.c`: connection states, protocol states, the per-peer record, the
timer wrapper, error accounting and back-off, graceful close, the
incoming-connection acceptance predicate, reconfiguration, and the
status string.  Machine integers are modelled as `Nat` (with explicit
`% 2^32` where 32-bit overflow matters) and clock arithmetic as `Int`.
Parts of the daemon that live outside the embedded file (the timer
layer's randomization, `proto_notify_state`, `ev_schedule`,
`bgp_schedule_packet`) are modelled from the specification; each such
definition says so in its doc comment.
-/

/-- Connection states of the BGP FSM, in the order of `bgp_state_names`
(Idle, Connect, Active, OpenSent, OpenConfirm, Established, Close). -/
inductive BgpConnState where
  | BS_IDLE
  | BS_CONNECT
  | BS_ACTIVE
  | BS_OPENSENT
  | BS_OPENCONFIRM
  | BS_ESTABLISHED
  | BS_CLOSE
deriving DecidableEq

open BgpConnState

/-- Numeric value of a connection state (used by `MAX(...)` in
`bgp_get_status`). -/
def BgpConnState.toNat : BgpConnState → Nat
  | BS_IDLE => 0
  | BS_CONNECT => 1
  | BS_ACTIVE => 2
  | BS_OPENSENT => 3
  | BS_OPENCONFIRM => 4
  | BS_ESTABLISHED => 5
  | BS_CLOSE => 6

/-- Protocol states of the surrounding protocol layer (`PS_*`). -/
inductive ProtoState where
  | PS_DOWN
  | PS_START
  | PS_STOP
  | PS_UP
deriving DecidableEq

open ProtoState

/-- Startup states of a peer (`BSS_*`), ordered Prepare < Connect <
ConnectNoCap as the comparisons `> BSS_PREPARE` and `>= BSS_CONNECT`
in the source require. -/
inductive BgpStartState where
  | BSS_PREPARE
  | BSS_CONNECT
  | BSS_CONNECT_NOCAP
deriving DecidableEq

open BgpStartState

def BgpStartState.toNat : BgpStartState → Nat
  | BSS_PREPARE => 0
  | BSS_CONNECT => 1
  | BSS_CONNECT_NOCAP => 2

/-- Error classes (`BE_*`), indices into `bgp_err_classes`. -/
def BE_NONE : Nat := 0
def BE_MISC : Nat := 1
def BE_SOCKET : Nat := 2
def BE_BGP_RX : Nat := 3
def BE_BGP_TX : Nat := 4
def BE_AUTO_DOWN : Nat := 5
def BE_MAN_DOWN : Nat := 6

/-- Modelled from the spec: `packets_to_send` is a bitmask over
{Open, Update, Notification, Keepalive, RouteRefresh} (the `PKT_*`
constants live in the packet codec headers, which are not part of the
embedded file). -/
def PKT_OPEN : Nat := 1
def PKT_UPDATE : Nat := 2
def PKT_NOTIFICATION : Nat := 3
def PKT_KEEPALIVE : Nat := 4
def PKT_ROUTE_REFRESH : Nat := 5

/-- A timer of the timer layer: `expires = none` means stopped,
`expires = some base` means armed with base interval `base`;
`randomize` is the randomization amount used at arming time. -/
structure timer_st where
  expires : Option Nat
  randomize : Nat
deriving DecidableEq

/-- `tm_new`: a freshly allocated timer is not running. -/
def tm_new : timer_st := { expires := none, randomize := 0 }

def tm_stop (t : timer_st) : timer_st := { t with expires := none }

def tm_start (t : timer_st) (after : Nat) : timer_st := { t with expires := some after }

/-- Whether a (possibly freed) timer slot is stopped. -/
def tmStopped : Option timer_st → Prop
  | none => True
  | some t => t.expires = none

instance : ∀ t : Option timer_st, Decidable (tmStopped t) := by
  intro t
  cases t with
  | none => exact isTrue trivial
  | some t => exact inferInstanceAs (Decidable (t.expires = none))

/-- bgp_start_timer: arm timer `t` with nominal `value` seconds,
setting the randomization amount to `value / 4` (RFC 1771 9.2.3.3)
and the base interval to `value - value / 4`; a `value` of 0 stops
the timer. -/
def bgp_start_timer (t : timer_st) (value : Nat) : timer_st :=
  if value ≠ 0 then
    tm_start { t with randomize := value / 4 } (value - value / 4)
  else
    tm_stop t

/-- Modelled from the spec: the timer layer applies the randomization
amount at arming time by adding a uniform draw from [0, randomize] to
the base interval (equivalently, the actual interval is the nominal
value minus a uniform reduction of at most a quarter of it); `draw`
is the raw random number. -/
def tm_fire_interval (t : timer_st) (draw : Nat) : Option Nat :=
  t.expires.map (fun base => base + draw % (t.randomize + 1))

/-- A TCP socket, with only the fields the session engine reads:
remote address, attached hooks, pending received bytes
(for `sk_rx_ready`) and the TTL. -/
structure sock where
  daddr : Nat
  rx_hook : Bool
  tx_hook : Bool
  rx_ready : Int
  ttl : Nat
deriving DecidableEq

/-- The BGP configuration record (`struct bgp_config`).  The `ifname`
field is a pointer in the source and is modelled as its pointer value
(a `Nat`, 0 for NULL), since `bgp_reconfigure` compares it bytewise;
`password` is the last field and is excluded from the bytewise
comparison. -/
structure bgp_config where
  local_as : Nat
  remote_as : Nat
  remote_ip : Nat
  multihop : Nat
  multihop_via : Nat
  source_addr : Nat
  ifname : Nat
  hold_time : Nat
  initial_hold_time : Nat
  connect_retry_time : Nat
  keepalive_time : Nat
  start_delay_time : Nat
  error_amnesia_time : Nat
  error_delay_time_min : Nat
  error_delay_time_max : Nat
  route_limit : Nat
  next_hop_self : Nat
  missing_lladdr : Nat
  compare_path_lengths : Nat
  prefer_older : Nat
  default_med : Nat
  default_local_pref : Nat
  rr_cluster_id : Nat
  rr_client : Nat
  rs_client : Nat
  disable_after_error : Nat
  enable_refresh : Nat
  enable_as4 : Nat
  capabilities : Nat
  advertise_ipv4 : Nat
  passive : Nat
  interpret_communities : Nat
  password : Option String
deriving DecidableEq

/-- A BGP connection (`struct bgp_conn`).  Timer slots are `Option`:
`none` models a freed (`rfree`d, NULL) timer. -/
structure bgp_conn where
  state : BgpConnState
  sk : Option sock
  connect_retry_timer : Option timer_st
  hold_timer : Option timer_st
  keepalive_timer : Option timer_st
  tx_ev : Bool
  packets_to_send : Nat
  start_state : BgpStartState
  want_as4_support : Bool
  peer_as4_support : Bool
  advertised_as : Nat
  notify_code : Nat
  notify_subcode : Nat
  notify_data : Option (List Nat)
  notify_size : Nat
deriving DecidableEq

/-- Which of the peer's two connection slots a connection pointer
refers to. -/
inductive ConnId where
  | incoming
  | outgoing
deriving DecidableEq

/-- A BGP peer instance (`struct bgp_proto`), including the enclosing
`struct proto` fields the engine touches (`proto_state`, `disabled`)
and two ghost counters (`usd_calls`, `stop_calls`) recording how often
`bgp_update_startup_delay` and `bgp_stop` have been invoked. -/
structure bgp_proto where
  proto_state : ProtoState
  disabled : Bool
  start_state : BgpStartState
  outgoing_conn : bgp_conn
  incoming_conn : bgp_conn
  conn : Option ConnId
  last_error_class : Nat
  last_error_code : Nat
  startup_delay : Nat
  last_proto_error : Nat
  startup_timer : Option timer_st
  event_scheduled : Bool
  cf : bgp_config
  usd_calls : Nat
  stop_calls : Nat
deriving DecidableEq

def bgp_proto.getConn (p : bgp_proto) : ConnId → bgp_conn
  | ConnId.incoming => p.incoming_conn
  | ConnId.outgoing => p.outgoing_conn

def bgp_proto.setConn (p : bgp_proto) (cid : ConnId) (c : bgp_conn) : bgp_proto :=
  match cid with
  | ConnId.incoming => { p with incoming_conn := c }
  | ConnId.outgoing => { p with outgoing_conn := c }

def bgp_proto.updateConn (p : bgp_proto) (cid : ConnId) (f : bgp_conn → bgp_conn) : bgp_proto :=
  p.setConn cid (f (p.getConn cid))

/-- Modelled from the spec: `ev_schedule` marks the peer's (coalescing)
decision event as scheduled. -/
def ev_schedule (p : bgp_proto) : bgp_proto := { p with event_scheduled := true }

/-- Modelled from the spec: `proto_notify_state` propagates the new
protocol state to the surrounding protocol layer; the engine observes
it through `p->p.proto_state`. -/
def proto_notify_state (p : bgp_proto) (ps : ProtoState) : bgp_proto :=
  { p with proto_state := ps }

/-- Modelled from the spec: `bgp_schedule_packet` sets the bit of the
given packet type in the connection's `packets_to_send` bitmask. -/
def bgp_schedule_packet (c : bgp_conn) (type : Nat) : bgp_conn :=
  { c with packets_to_send := c.packets_to_send ||| (1 <<< type) }

/-- The `MIN` macro: `(a < b) ? a : b`. -/
def MIN (a b : Nat) : Nat := if a < b then a else b

/-- The `MAX` macro: `(a > b) ? a : b`. -/
def MAX (a b : Nat) : Nat := if a > b then a else b

/-- The value of a `u32` read through a cast to (32-bit) `int`, as in
`(int) cf->error_amnesia_time`. -/
def int_of_u32 (n : Nat) : Int :=
  if n % 4294967296 < 2147483648 then ((n % 4294967296 : Nat) : Int)
  else ((n % 4294967296 : Nat) : Int) - 4294967296

/-- bgp_store_error: record the last error of the peer, unless the
peer is Up and the error is on a connection other than the session
connection, or the peer is already stopping. -/
def bgp_store_error (p : bgp_proto) (c : Option ConnId) (cls : Nat) (code : Nat) : bgp_proto :=
  if p.proto_state = PS_UP ∧ c ≠ none ∧ c ≠ p.conn then p
  else if p.proto_state = PS_STOP then p
  else { p with last_error_class := cls, last_error_code := code }

/-- bgp_update_startup_delay: update the error back-off delay at time
`now`.  The doubling `2 * startup_delay` is 32-bit arithmetic. -/
def bgp_update_startup_delay (now : Nat) (p : bgp_proto) : bgp_proto :=
  let p := { p with usd_calls := p.usd_calls + 1 }
  let p :=
    if p.last_proto_error ≠ 0 ∧
        (now : Int) - (p.last_proto_error : Int) ≥ int_of_u32 p.cf.error_amnesia_time then
      { p with startup_delay := 0 }
    else p
  let p := { p with last_proto_error := now }
  if p.cf.disable_after_error ≠ 0 then
    { p with startup_delay := 0, disabled := true }
  else if p.startup_delay = 0 then
    { p with startup_delay := p.cf.error_delay_time_min }
  else
    let d := MIN ((2 * p.startup_delay) % 4294967296) p.cf.error_delay_time_max
    { p with startup_delay := d }

/-- Modelled from the claim's wording, for comparison with the source
function: claim C2 omits the `last_proto_error != 0` guard on the
amnesia reset, resetting whenever `now - last_proto_error` is at least
`error_amnesia_time`. -/
def bgp_update_startup_delay_claim (now : Nat) (p : bgp_proto) : bgp_proto :=
  let p :=
    if (now : Int) - (p.last_proto_error : Int) ≥ int_of_u32 p.cf.error_amnesia_time then
      { p with startup_delay := 0 }
    else p
  let p := { p with last_proto_error := now }
  if p.cf.disable_after_error ≠ 0 then
    { p with startup_delay := 0, disabled := true }
  else if p.startup_delay = 0 then
    { p with startup_delay := p.cf.error_delay_time_min }
  else
    let d := MIN ((2 * p.startup_delay) % 4294967296) p.cf.error_delay_time_max
    { p with startup_delay := d }

/-- A default configuration holding the documented default values of
the configuration grammar (used to build concrete example states). -/
def defaultConfig : bgp_config where
  local_as := 65010
  remote_as := 65020
  remote_ip := 100
  multihop := 0
  multihop_via := 0
  source_addr := 0
  ifname := 0
  hold_time := 240
  initial_hold_time := 240
  connect_retry_time := 120
  keepalive_time := 0
  start_delay_time := 5
  error_amnesia_time := 300
  error_delay_time_min := 60
  error_delay_time_max := 300
  route_limit := 0
  next_hop_self := 0
  missing_lladdr := 0
  compare_path_lengths := 1
  prefer_older := 0
  default_med := 0
  default_local_pref := 100
  rr_cluster_id := 0
  rr_client := 0
  rs_client := 0
  disable_after_error := 0
  enable_refresh := 1
  enable_as4 := 1
  capabilities := 2
  advertise_ipv4 := 1
  passive := 0
  interpret_communities := 1
  password := none

/-- A connection slot with everything released, as after
`bgp_close_conn` followed by entering Idle. -/
def idleConn : bgp_conn where
  state := BS_IDLE
  sk := none
  connect_retry_timer := none
  hold_timer := none
  keepalive_timer := none
  tx_ev := false
  packets_to_send := 0
  start_state := BSS_PREPARE
  want_as4_support := false
  peer_as4_support := false
  advertised_as := 0
  notify_code := 0
  notify_subcode := 0
  notify_data := none
  notify_size := 0

/-- A baseline peer used to build concrete example states. -/
def basePeer : bgp_proto where
  proto_state := PS_START
  disabled := false
  start_state := BSS_CONNECT
  outgoing_conn := idleConn
  incoming_conn := idleConn
  conn := none
  last_error_class := 0
  last_error_code := 0
  startup_delay := 0
  last_proto_error := 0
  startup_timer := none
  event_scheduled := false
  cf := defaultConfig
  usd_calls := 0
  stop_calls := 0

/-- The amnesia-reset condition of `bgp_update_startup_delay`: a
previous protocol error is recorded and lies at least
`error_amnesia_time` in the past. -/
def amnesia_reset (now : Nat) (p : bgp_proto) : Prop :=
  p.last_proto_error ≠ 0 ∧
    (now : Int) - (p.last_proto_error : Int) ≥ int_of_u32 p.cf.error_amnesia_time

instance (now : Nat) (p : bgp_proto) : Decidable (amnesia_reset now p) := by
  unfold amnesia_reset; infer_instance

/-- A peer with a nonzero startup delay but no recorded error time:
the state on which the source and the claim's reading of
`bgp_update_startup_delay` disagree. -/
def exC2 : bgp_proto := { basePeer with startup_delay := 100 }

/-- C2 (counterexample): the claim's description resets the delay
whenever `now - last_proto_error >= error_amnesia_time`, but the
source resets only when additionally `last_proto_error != 0`.  On a
peer with `startup_delay = 100`, `last_proto_error = 0` and default
times (amnesia 300, min 60, max 300) at `now = 400`, the source
doubles the delay to 200 while the claim's description yields the
minimum delay 60. -/
theorem bgp_update_startup_delay_claim_false :
    (bgp_update_startup_delay 400 exC2).startup_delay = 200 ∧
    (bgp_update_startup_delay_claim 400 exC2).startup_delay = 60 := by
  constructor <;> decide

/-- C2 (amended): `bgp_update_startup_delay(p)` behaves as: if
`last_proto_error ≠ 0` and `now - last_proto_error ≥
error_amnesia_time` then `startup_delay` is reset to 0; then
`last_proto_error` is set to `now`; if `disable_after_error` then
`startup_delay` is cleared and the peer disabled; otherwise
`startup_delay` becomes `error_delay_time_min` when it was 0, else
`min(2·startup_delay, error_delay_time_max)`.  Consequently, for
configurations with `error_delay_time_min ≤ error_delay_time_max <
2^31`: `startup_delay` never exceeds `error_delay_time_max`, and a
successive error within `error_amnesia_time` (no amnesia reset, back-
off not disabled) produces a non-decreasing `startup_delay`. -/
theorem bgp_update_startup_delay_ok (now : Nat) (p : bgp_proto)
    (hminmax : p.cf.error_delay_time_min ≤ p.cf.error_delay_time_max)
    (hmax : p.cf.error_delay_time_max < 2147483648) :
    (bgp_update_startup_delay now p).last_proto_error = now
    ∧ (p.cf.disable_after_error ≠ 0 →
        (bgp_update_startup_delay now p).startup_delay = 0 ∧
        (bgp_update_startup_delay now p).disabled = true)
    ∧ (p.cf.disable_after_error = 0 →
        (bgp_update_startup_delay now p).startup_delay =
          (if (if amnesia_reset now p then 0 else p.startup_delay) = 0
           then p.cf.error_delay_time_min
           else MIN ((2 * (if amnesia_reset now p then 0 else p.startup_delay)) % 4294967296)
                  p.cf.error_delay_time_max))
    ∧ (bgp_update_startup_delay now p).startup_delay ≤ p.cf.error_delay_time_max
    ∧ (p.cf.disable_after_error = 0 → ¬ amnesia_reset now p →
        p.startup_delay ≤ p.cf.error_delay_time_max →
        p.startup_delay ≤ (bgp_update_startup_delay now p).startup_delay) := by
  simp only [bgp_update_startup_delay, amnesia_reset, MIN] at *
  split_ifs <;> simp_all <;> omega

/-- C2 (witness for the amended theorem): at the concrete peer
`exC2` (delay 100, no recorded error, default delay bounds) and time
400, the amended description evaluates as stated. -/
theorem bgp_update_startup_delay_ok_witness :
    (bgp_update_startup_delay 400 exC2).last_proto_error = 400
    ∧ (exC2.cf.disable_after_error ≠ 0 →
        (bgp_update_startup_delay 400 exC2).startup_delay = 0 ∧
        (bgp_update_startup_delay 400 exC2).disabled = true)
    ∧ (exC2.cf.disable_after_error = 0 →
        (bgp_update_startup_delay 400 exC2).startup_delay =
          (if (if amnesia_reset 400 exC2 then 0 else exC2.startup_delay) = 0
           then exC2.cf.error_delay_time_min
           else MIN ((2 * (if amnesia_reset 400 exC2 then 0 else exC2.startup_delay)) % 4294967296)
                  exC2.cf.error_delay_time_max))
    ∧ (bgp_update_startup_delay 400 exC2).startup_delay ≤ exC2.cf.error_delay_time_max
    ∧ (exC2.cf.disable_after_error = 0 → ¬ amnesia_reset 400 exC2 →
        exC2.startup_delay ≤ exC2.cf.error_delay_time_max →
        exC2.startup_delay ≤ (bgp_update_startup_delay 400 exC2).startup_delay) :=
  bgp_update_startup_delay_ok 400 exC2 (by decide) (by decide)

/-- C4: a timer armed through `bgp_start_timer` with nominal value 0
is stopped; with nominal value `v > 0` it is armed at `v - v/4` with
randomization amount `v/4`, and for every random draw the actual
firing interval lies in `[3v/4, v]`. -/
theorem bgp_start_timer_ok (t : timer_st) (v draw : Nat) :
    (bgp_start_timer t 0).expires = none
    ∧ (bgp_start_timer t 0).randomize = t.randomize
    ∧ (0 < v →
        bgp_start_timer t v = { expires := some (v - v / 4), randomize := v / 4 }
        ∧ tm_fire_interval (bgp_start_timer t v) draw =
            some ((v - v / 4) + draw % (v / 4 + 1))
        ∧ 3 * v / 4 ≤ (v - v / 4) + draw % (v / 4 + 1)
        ∧ (v - v / 4) + draw % (v / 4 + 1) ≤ v) := by
  have h0 : bgp_start_timer t 0 = tm_stop t := by simp [bgp_start_timer]
  refine ⟨by simp [h0, tm_stop], by simp [h0, tm_stop], ?_⟩
  intro hv
  have hne : v ≠ 0 := by omega
  have h1 : bgp_start_timer t v = { expires := some (v - v / 4), randomize := v / 4 } := by
    simp [bgp_start_timer, tm_start, hne]
  have hm : draw % (v / 4 + 1) ≤ v / 4 := by
    have := Nat.mod_lt draw (show 0 < v / 4 + 1 by omega)
    omega
  refine ⟨h1, ?_, by omega, by omega⟩
  simp [h1, tm_fire_interval]

/-- C4 (witness): arming a fresh timer with nominal value 10 and draw
7 gives base 8, randomization 2, and firing interval 9 ∈ [7, 10]. -/
theorem bgp_start_timer_ok_witness :
    (bgp_start_timer tm_new 0).expires = none
    ∧ (bgp_start_timer tm_new 0).randomize = tm_new.randomize
    ∧ (0 < 10 →
        bgp_start_timer tm_new 10 = { expires := some (10 - 10 / 4), randomize := 10 / 4 }
        ∧ tm_fire_interval (bgp_start_timer tm_new 10) 7 =
            some ((10 - 10 / 4) + 7 % (10 / 4 + 1))
        ∧ 3 * 10 / 4 ≤ (10 - 10 / 4) + 7 % (10 / 4 + 1)
        ∧ (10 - 10 / 4) + 7 % (10 / 4 + 1) ≤ 10) :=
  bgp_start_timer_ok tm_new 10 7

/-- bgp_close_conn: release all resources of the connection (packet
queue, the three timers, the socket, the tx event).  The state field
is left untouched, exactly as in the source. -/
def bgp_close_conn (c : bgp_conn) : bgp_conn :=
  { c with packets_to_send := 0,
           connect_retry_timer := none,
           keepalive_timer := none,
           hold_timer := none,
           sk := none,
           tx_ev := false }

/-- The connection-local part of `bgp_conn_enter_close_state`: set the
state to Close, stop the hold and keepalive timers, and detach the
socket's receive hook. -/
def conn_close_transform (c : bgp_conn) : bgp_conn :=
  { c with state := BS_CLOSE,
           hold_timer := c.hold_timer.map tm_stop,
           keepalive_timer := c.keepalive_timer.map tm_stop,
           sk := c.sk.map (fun s => { s with rx_hook := false }) }

/-- The calls of the mutually recursive teardown machinery of bgp.c:
`bgp_error`, `bgp_conn_enter_close_state`, `bgp_conn_enter_idle_state`,
`bgp_conn_leave_established_state`, `bgp_stop` and
`bgp_graceful_close_conn` call one another; the recursion is executed
by the fueled interpreter `bgpExec`. -/
inductive BgpCall where
  | callError (cid : ConnId) (code subcode : Nat) (data : Option (List Nat)) (len : Int)
  | callEnterClose (cid : ConnId)
  | callEnterIdle (cid : ConnId)
  | callLeaveEstablished
  | callStop (subcode : Nat)
  | callGraceful (cid : ConnId) (subcode : Nat)

open BgpCall

/-- Fueled interpreter for the teardown call graph of bgp.c.  Each
branch is a direct transcription of the corresponding source function;
`now` is the current clock (used by `bgp_update_startup_delay`).  The
actual recursion depth is bounded (a connection entering Close is
skipped by any later graceful close, and `bgp_stop` moves the peer out
of `PS_UP` before cascading), so any fuel of at least 8 computes the
real result; the wrappers below use fuel 32. -/
def bgpExec (now : Nat) : Nat → BgpCall → bgp_proto → bgp_proto
  | 0, _, p => p
  | Nat.succ fuel, callError cid code subcode data len, p =>
    if (p.getConn cid).state = BS_CLOSE then p
    else
      let p1 := bgp_store_error p (some cid) BE_BGP_TX ((code <<< 16) ||| subcode)
      let p2 := bgpExec now fuel (callEnterClose cid) p1
      let p3 := p2.updateConn cid (fun c =>
        { c with notify_code := code, notify_subcode := subcode,
                 notify_data := data,
                 notify_size := if len > 0 then len.toNat else 0 })
      let p4 := p3.updateConn cid (fun c => bgp_schedule_packet c PKT_NOTIFICATION)
      if code ≠ 6 then
        bgpExec now fuel (callStop 0) (bgp_update_startup_delay now p4)
      else p4
  | Nat.succ fuel, callEnterClose cid, p =>
    let os := (p.getConn cid).state
    let p1 := p.updateConn cid conn_close_transform
    if os = BS_ESTABLISHED then bgpExec now fuel callLeaveEstablished p1 else p1
  | Nat.succ fuel, callEnterIdle cid, p =>
    let os := (p.getConn cid).state
    let p1 := p.updateConn cid bgp_close_conn
    let p2 := p1.updateConn cid (fun c => { c with state := BS_IDLE })
    let p3 := ev_schedule p2
    if os = BS_ESTABLISHED then bgpExec now fuel callLeaveEstablished p3 else p3
  | Nat.succ fuel, callLeaveEstablished, p =>
    let p1 := { p with conn := none }
    if p1.proto_state = PS_UP then bgpExec now fuel (callStop 0) p1 else p1
  | Nat.succ fuel, callStop subcode, p =>
    let p1 := { p with stop_calls := p.stop_calls + 1 }
    let p2 := proto_notify_state p1 PS_STOP
    let p3 := bgpExec now fuel (callGraceful ConnId.outgoing subcode) p2
    let p4 := bgpExec now fuel (callGraceful ConnId.incoming subcode) p3
    ev_schedule p4
  | Nat.succ fuel, callGraceful cid subcode, p =>
    match (p.getConn cid).state with
    | BS_IDLE | BS_CLOSE => p
    | BS_CONNECT | BS_ACTIVE => bgpExec now fuel (callEnterIdle cid) p
    | BS_OPENSENT | BS_OPENCONFIRM | BS_ESTABLISHED =>
      bgpExec now fuel (callError cid 6 subcode none 0) p

def BGP_FUEL : Nat := 32

/-- bgp_error: report a protocol error on a connection (no-op when it
is already in Close; otherwise record the error, enter Close, queue a
Notification with the given code/subcode, and for non-Cease errors
apply back-off and stop the peer). -/
def bgp_error (now : Nat) (p : bgp_proto) (cid : ConnId) (code subcode : Nat)
    (data : Option (List Nat)) (len : Int) : bgp_proto :=
  bgpExec now BGP_FUEL (callError cid code subcode data len) p

/-- bgp_stop: move the peer to stopping and close both connections
gracefully with the given Cease subcode. -/
def bgp_stop (now : Nat) (p : bgp_proto) (subcode : Nat) : bgp_proto :=
  bgpExec now BGP_FUEL (callStop subcode) p

def bgp_conn_enter_close_state (now : Nat) (p : bgp_proto) (cid : ConnId) : bgp_proto :=
  bgpExec now BGP_FUEL (callEnterClose cid) p

def bgp_conn_enter_idle_state (now : Nat) (p : bgp_proto) (cid : ConnId) : bgp_proto :=
  bgpExec now BGP_FUEL (callEnterIdle cid) p

def bgp_graceful_close_conn (now : Nat) (p : bgp_proto) (cid : ConnId) (subcode : Nat) :
    bgp_proto :=
  bgpExec now BGP_FUEL (callGraceful cid subcode) p

/-- bgp_conn_enter_openconfirm_state. -/
def bgp_conn_enter_openconfirm_state (p : bgp_proto) (cid : ConnId) : bgp_proto :=
  p.updateConn cid (fun c => { c with state := BS_OPENCONFIRM })

/-- bgp_conn_enter_established_state: make the connection the session
connection, clear the last-error fields, enter Established and notify
the protocol layer Up (`bgp_attr_init` touches only attribute state
outside this model). -/
def bgp_conn_enter_established_state (p : bgp_proto) (cid : ConnId) : bgp_proto :=
  let p1 := { p with conn := some cid, last_error_class := 0, last_error_code := 0 }
  let p2 := p1.updateConn cid (fun c => { c with state := BS_ESTABLISHED })
  proto_notify_state p2 PS_UP

/-- bgp_setup_conn: reset the connection slot (no socket, empty packet
queue, three freshly allocated timers, a fresh tx event).  As in the
source, the state field is not touched here. -/
def bgp_setup_conn (c : bgp_conn) : bgp_conn :=
  { c with sk := none,
           packets_to_send := 0,
           connect_retry_timer := some tm_new,
           hold_timer := some tm_new,
           keepalive_timer := some tm_new,
           tx_ev := true }

/-- bgp_setup_sk: attach the socket to the connection. -/
def bgp_setup_sk (c : bgp_conn) (s : sock) : bgp_conn :=
  { c with sk := some s }

/-- bgp_send_open: snapshot the startup state, attach the rx/tx hooks,
stop the connect-retry timer, schedule an Open packet, enter OpenSent
and start the hold timer with the initial hold time. -/
def bgp_send_open (p : bgp_proto) (cid : ConnId) : bgp_proto :=
  let p1 := p.updateConn cid (fun c =>
    { c with start_state := p.start_state,
             want_as4_support :=
               p.cf.enable_as4 ≠ 0 ∧ p.start_state ≠ BSS_CONNECT_NOCAP,
             peer_as4_support := false,
             advertised_as := 0,
             sk := c.sk.map (fun s => { s with rx_hook := true, tx_hook := true }),
             connect_retry_timer := c.connect_retry_timer.map tm_stop })
  let p2 := p1.updateConn cid (fun c => bgp_schedule_packet c PKT_OPEN)
  let p3 := p2.updateConn cid (fun c => { c with state := BS_OPENSENT })
  p3.updateConn cid (fun c =>
    { c with hold_timer := c.hold_timer.map (fun t => bgp_start_timer t p.cf.initial_hold_time) })

/-- The acceptance predicate of `bgp_incoming_connection`: the peer is
in a proper state and there is no other incoming connection. -/
def bgp_incoming_acc (p : bgp_proto) : Prop :=
  (p.proto_state = PS_START ∨ p.proto_state = PS_UP)
    ∧ BSS_CONNECT.toNat ≤ p.start_state.toNat
    ∧ p.incoming_conn.sk = none

instance (p : bgp_proto) : Decidable (bgp_incoming_acc p) := by
  unfold bgp_incoming_acc; infer_instance

/-- The body of `bgp_incoming_connection` for the peer whose remote
address matched: accept (set up the incoming connection on the socket,
set its TTL, send Open) or reject.  The returned flag is true when the
connection was accepted. -/
def bgp_incoming_connection_peer (p : bgp_proto) (s : sock) : bgp_proto × Bool :=
  if bgp_incoming_acc p then
    let p1 := p.updateConn ConnId.incoming bgp_setup_conn
    let p2 := p1.updateConn ConnId.incoming (fun c => bgp_setup_sk c s)
    let p3 := p2.updateConn ConnId.incoming (fun c =>
      { c with sk := c.sk.map (fun s0 =>
          { s0 with ttl := if p.cf.multihop ≠ 0 then p.cf.multihop else 1 }) })
    (bgp_send_open p3 ConnId.incoming, true)
  else (p, false)

/-- bgp_incoming_connection: walk the configured peers; on the first
whose remote address equals the socket's remote address, accept or
reject; the returned flag is true when the socket was freed (rejected
connection or no matching peer). -/
def bgp_incoming_connection : List bgp_proto → sock → List bgp_proto × Bool
  | [], _ => ([], true)
  | p :: rest, s =>
    if p.cf.remote_ip = s.daddr then
      let r := bgp_incoming_connection_peer p s
      (r.1 :: rest, !r.2)
    else
      let r := bgp_incoming_connection rest s
      (p :: r.1, r.2)

/-- bgp_hold_timeout: if the socket has received bytes pending we are
probably congested, so restart the hold timer with 10 seconds;
otherwise report error 4,0 (hold timer expired).  The source
unconditionally dereferences `conn->sk`; the `none` branch is
unreachable (the hold timer only runs on connections with a
socket). -/
def bgp_hold_timeout (now : Nat) (p : bgp_proto) (cid : ConnId) : bgp_proto :=
  match (p.getConn cid).sk with
  | some s =>
    if s.rx_ready > 0 then
      p.updateConn cid (fun c =>
        { c with hold_timer := c.hold_timer.map (fun t => bgp_start_timer t 10) })
    else bgp_error now p cid 4 0 none 0
  | none => bgp_error now p cid 4 0 none 0

/-- bgp_keepalive_timeout: schedule a Keepalive packet. -/
def bgp_keepalive_timeout (p : bgp_proto) (cid : ConnId) : bgp_proto :=
  p.updateConn cid (fun c => bgp_schedule_packet c PKT_KEEPALIVE)

/-- bgp_sock_err: store the socket error and enter Idle. -/
def bgp_sock_err (now : Nat) (p : bgp_proto) (cid : ConnId) (err : Nat) : bgp_proto :=
  bgp_conn_enter_idle_state now (bgp_store_error p (some cid) BE_SOCKET err) cid

/-- bgp_shutdown: store (ManDown, 0), choose the Cease subcode from
the shutdown cause, clear the startup delay and stop the peer. -/
def bgp_shutdown (now : Nat) (p : bgp_proto) (reconfiguring cf_new : Bool) : bgp_proto :=
  let p1 := bgp_store_error p none BE_MAN_DOWN 0
  let subcode : Nat :=
    if reconfiguring then (if cf_new then 6 else 3) else 2
  bgp_stop now { p1 with startup_delay := 0 } subcode

@[simp]
theorem getConn_updateConn_same (p : bgp_proto) (cid : ConnId) (f : bgp_conn → bgp_conn) :
    ((p.updateConn cid f).getConn cid) = f (p.getConn cid) := by
  cases cid <;> rfl

@[simp]
theorem getConn_updateConn_other (p : bgp_proto) (cid cid' : ConnId) (f : bgp_conn → bgp_conn)
    (h : cid' ≠ cid) : ((p.updateConn cid f).getConn cid') = p.getConn cid' := by
  cases cid <;> cases cid' <;> first | rfl | exact absurd rfl h

theorem updateConn_updateConn (p : bgp_proto) (cid : ConnId) (f g : bgp_conn → bgp_conn) :
    (p.updateConn cid f).updateConn cid g = p.updateConn cid (fun c => g (f c)) := by
  cases cid <;> rfl

@[simp]
theorem updateConn_proto_state (p : bgp_proto) (cid : ConnId) (f : bgp_conn → bgp_conn) :
    (p.updateConn cid f).proto_state = p.proto_state := by cases cid <;> rfl

@[simp]
theorem updateConn_conn (p : bgp_proto) (cid : ConnId) (f : bgp_conn → bgp_conn) :
    (p.updateConn cid f).conn = p.conn := by cases cid <;> rfl

@[simp]
theorem updateConn_last_error_class (p : bgp_proto) (cid : ConnId) (f : bgp_conn → bgp_conn) :
    (p.updateConn cid f).last_error_class = p.last_error_class := by cases cid <;> rfl

@[simp]
theorem updateConn_last_error_code (p : bgp_proto) (cid : ConnId) (f : bgp_conn → bgp_conn) :
    (p.updateConn cid f).last_error_code = p.last_error_code := by cases cid <;> rfl

@[simp]
theorem updateConn_usd_calls (p : bgp_proto) (cid : ConnId) (f : bgp_conn → bgp_conn) :
    (p.updateConn cid f).usd_calls = p.usd_calls := by cases cid <;> rfl

@[simp]
theorem updateConn_stop_calls (p : bgp_proto) (cid : ConnId) (f : bgp_conn → bgp_conn) :
    (p.updateConn cid f).stop_calls = p.stop_calls := by cases cid <;> rfl

@[simp]
theorem updateConn_cf (p : bgp_proto) (cid : ConnId) (f : bgp_conn → bgp_conn) :
    (p.updateConn cid f).cf = p.cf := by cases cid <;> rfl

@[simp]
theorem updateConn_startup_delay (p : bgp_proto) (cid : ConnId) (f : bgp_conn → bgp_conn) :
    (p.updateConn cid f).startup_delay = p.startup_delay := by cases cid <;> rfl

@[simp]
theorem updateConn_event_scheduled (p : bgp_proto) (cid : ConnId) (f : bgp_conn → bgp_conn) :
    (p.updateConn cid f).event_scheduled = p.event_scheduled := by cases cid <;> rfl

/-- Closed form of `bgp_graceful_close_conn` in a context where the
peer is already stopping (`PS_STOP`), as inside `bgp_stop`: the
connection is handled according to its state, the stored last error
is not overwritten, and no further stop cascades. -/
def bgp_graceful_stopped (cid : ConnId) (subcode : Nat) (p : bgp_proto) : bgp_proto :=
  match (p.getConn cid).state with
  | BS_IDLE | BS_CLOSE => p
  | BS_CONNECT | BS_ACTIVE =>
    ev_schedule (p.updateConn cid (fun c => { bgp_close_conn c with state := BS_IDLE }))
  | BS_OPENSENT | BS_OPENCONFIRM =>
    p.updateConn cid (fun c =>
      bgp_schedule_packet
        { conn_close_transform c with
            notify_code := 6, notify_subcode := subcode,
            notify_data := none, notify_size := 0 }
        PKT_NOTIFICATION)
  | BS_ESTABLISHED =>
    { p.updateConn cid (fun c =>
        bgp_schedule_packet
          { conn_close_transform c with
              notify_code := 6, notify_subcode := subcode,
              notify_data := none, notify_size := 0 }
          PKT_NOTIFICATION)
      with conn := none }

/-- Closed form of `bgp_stop`. -/
def bgp_stop_closed (subcode : Nat) (p : bgp_proto) : bgp_proto :=
  ev_schedule
    (bgp_graceful_stopped ConnId.incoming subcode
      (bgp_graceful_stopped ConnId.outgoing subcode
        (proto_notify_state { p with stop_calls := p.stop_calls + 1 } PS_STOP)))

@[simp]
theorem graceful_stopped_proto_state (cid : ConnId) (s : Nat) (p : bgp_proto) :
    (bgp_graceful_stopped cid s p).proto_state = p.proto_state := by
  unfold bgp_graceful_stopped
  split <;> simp [ev_schedule]

@[simp]
theorem graceful_stopped_usd_calls (cid : ConnId) (s : Nat) (p : bgp_proto) :
    (bgp_graceful_stopped cid s p).usd_calls = p.usd_calls := by
  unfold bgp_graceful_stopped
  split <;> simp [ev_schedule]

@[simp]
theorem graceful_stopped_stop_calls (cid : ConnId) (s : Nat) (p : bgp_proto) :
    (bgp_graceful_stopped cid s p).stop_calls = p.stop_calls := by
  unfold bgp_graceful_stopped
  split <;> simp [ev_schedule]

@[simp]
theorem graceful_stopped_last_error_class (cid : ConnId) (s : Nat) (p : bgp_proto) :
    (bgp_graceful_stopped cid s p).last_error_class = p.last_error_class := by
  unfold bgp_graceful_stopped
  split <;> simp [ev_schedule]

@[simp]
theorem graceful_stopped_last_error_code (cid : ConnId) (s : Nat) (p : bgp_proto) :
    (bgp_graceful_stopped cid s p).last_error_code = p.last_error_code := by
  unfold bgp_graceful_stopped
  split <;> simp [ev_schedule]

theorem graceful_stopped_getConn_other (cid cid' : ConnId) (s : Nat) (p : bgp_proto)
    (h : cid' ≠ cid) :
    (bgp_graceful_stopped cid s p).getConn cid' = p.getConn cid' := by
  unfold bgp_graceful_stopped
  split <;> simp [ev_schedule, bgp_proto.getConn, getConn_updateConn_other, h] <;>
    (cases cid <;> cases cid' <;> simp_all [bgp_proto.updateConn, bgp_proto.setConn, bgp_proto.getConn])

theorem graceful_stopped_getConn_close (cid cid' : ConnId) (s : Nat) (p : bgp_proto)
    (h : (p.getConn cid).state = BS_CLOSE) :
    (bgp_graceful_stopped cid' s p).getConn cid = p.getConn cid := by
  by_cases hc : cid = cid'
  · subst hc
    unfold bgp_graceful_stopped
    rw [h]
  · exact graceful_stopped_getConn_other cid' cid s p hc

theorem exec_error_step (now fuel : Nat) (cid : ConnId) (code subcode : Nat)
    (data : Option (List Nat)) (len : Int) (p : bgp_proto) :
    bgpExec now (fuel + 1) (callError cid code subcode data len) p =
      (if (p.getConn cid).state = BS_CLOSE then p
       else
        if code ≠ 6 then
          bgpExec now fuel (callStop 0)
            (bgp_update_startup_delay now
              (((bgpExec now fuel (callEnterClose cid)
                    (bgp_store_error p (some cid) BE_BGP_TX
                      ((code <<< 16) ||| subcode))).updateConn cid
                  (fun c =>
                    { c with notify_code := code, notify_subcode := subcode,
                             notify_data := data,
                             notify_size := if len > 0 then len.toNat else 0 })).updateConn cid
                (fun c => bgp_schedule_packet c PKT_NOTIFICATION)))
        else
          ((bgpExec now fuel (callEnterClose cid)
              (bgp_store_error p (some cid) BE_BGP_TX
                ((code <<< 16) ||| subcode))).updateConn cid
            (fun c =>
              { c with notify_code := code, notify_subcode := subcode,
                       notify_data := data,
                       notify_size := if len > 0 then len.toNat else 0 })).updateConn cid
          (fun c => bgp_schedule_packet c PKT_NOTIFICATION)) := rfl

theorem exec_close_step (now fuel : Nat) (cid : ConnId) (p : bgp_proto) :
    bgpExec now (fuel + 1) (callEnterClose cid) p =
      (if (p.getConn cid).state = BS_ESTABLISHED then
        bgpExec now fuel callLeaveEstablished (p.updateConn cid conn_close_transform)
       else p.updateConn cid conn_close_transform) := rfl

theorem exec_idle_step (now fuel : Nat) (cid : ConnId) (p : bgp_proto) :
    bgpExec now (fuel + 1) (callEnterIdle cid) p =
      (if (p.getConn cid).state = BS_ESTABLISHED then
        bgpExec now fuel callLeaveEstablished
          (ev_schedule ((p.updateConn cid bgp_close_conn).updateConn cid
            (fun c => { c with state := BS_IDLE })))
       else
        ev_schedule ((p.updateConn cid bgp_close_conn).updateConn cid
          (fun c => { c with state := BS_IDLE }))) := rfl

theorem exec_leave_step (now fuel : Nat) (p : bgp_proto) :
    bgpExec now (fuel + 1) callLeaveEstablished p =
      (if p.proto_state = PS_UP then
        bgpExec now fuel (callStop 0) { p with conn := none }
       else { p with conn := none }) := rfl

theorem exec_stop_step (now fuel : Nat) (subcode : Nat) (p : bgp_proto) :
    bgpExec now (fuel + 1) (callStop subcode) p =
      ev_schedule
        (bgpExec now fuel (callGraceful ConnId.incoming subcode)
          (bgpExec now fuel (callGraceful ConnId.outgoing subcode)
            (proto_notify_state { p with stop_calls := p.stop_calls + 1 } PS_STOP))) := rfl

theorem exec_graceful_step (now fuel : Nat) (cid : ConnId) (subcode : Nat) (p : bgp_proto) :
    bgpExec now (fuel + 1) (callGraceful cid subcode) p =
      (match (p.getConn cid).state with
       | BS_IDLE | BS_CLOSE => p
       | BS_CONNECT | BS_ACTIVE => bgpExec now fuel (callEnterIdle cid) p
       | BS_OPENSENT | BS_OPENCONFIRM | BS_ESTABLISHED =>
         bgpExec now fuel (callError cid 6 subcode none 0) p) := rfl

theorem updateConn_conn_none (p : bgp_proto) (cid : ConnId) (f : bgp_conn → bgp_conn) :
    bgp_proto.updateConn { p with conn := none } cid f =
      { p.updateConn cid f with conn := none } := by
  cases cid <;> rfl

@[simp]
theorem store_error_proto_state (p : bgp_proto) (c : Option ConnId) (cls code : Nat) :
    (bgp_store_error p c cls code).proto_state = p.proto_state := by
  unfold bgp_store_error; split_ifs <;> rfl

@[simp]
theorem store_error_conn (p : bgp_proto) (c : Option ConnId) (cls code : Nat) :
    (bgp_store_error p c cls code).conn = p.conn := by
  unfold bgp_store_error; split_ifs <;> rfl

@[simp]
theorem store_error_getConn (p : bgp_proto) (c : Option ConnId) (cls code : Nat) (cid : ConnId) :
    (bgp_store_error p c cls code).getConn cid = p.getConn cid := by
  unfold bgp_store_error; split_ifs <;> cases cid <;> rfl

@[simp]
theorem store_error_usd_calls (p : bgp_proto) (c : Option ConnId) (cls code : Nat) :
    (bgp_store_error p c cls code).usd_calls = p.usd_calls := by
  unfold bgp_store_error; split_ifs <;> rfl

@[simp]
theorem store_error_stop_calls (p : bgp_proto) (c : Option ConnId) (cls code : Nat) :
    (bgp_store_error p c cls code).stop_calls = p.stop_calls := by
  unfold bgp_store_error; split_ifs <;> rfl

@[simp]
theorem usd_getConn (now : Nat) (p : bgp_proto) (cid : ConnId) :
    (bgp_update_startup_delay now p).getConn cid = p.getConn cid := by
  cases cid <;>
    (simp only [bgp_update_startup_delay, bgp_proto.getConn]; split_ifs <;> rfl)

@[simp]
theorem usd_proto_state (now : Nat) (p : bgp_proto) :
    (bgp_update_startup_delay now p).proto_state = p.proto_state := by
  simp only [bgp_update_startup_delay]; split_ifs <;> rfl

@[simp]
theorem usd_conn (now : Nat) (p : bgp_proto) :
    (bgp_update_startup_delay now p).conn = p.conn := by
  simp only [bgp_update_startup_delay]; split_ifs <;> rfl

@[simp]
theorem usd_last_error_class (now : Nat) (p : bgp_proto) :
    (bgp_update_startup_delay now p).last_error_class = p.last_error_class := by
  simp only [bgp_update_startup_delay]; split_ifs <;> rfl

@[simp]
theorem usd_last_error_code (now : Nat) (p : bgp_proto) :
    (bgp_update_startup_delay now p).last_error_code = p.last_error_code := by
  simp only [bgp_update_startup_delay]; split_ifs <;> rfl

@[simp]
theorem usd_usd_calls (now : Nat) (p : bgp_proto) :
    (bgp_update_startup_delay now p).usd_calls = p.usd_calls + 1 := by
  simp only [bgp_update_startup_delay]; split_ifs <;> rfl

@[simp]
theorem usd_stop_calls (now : Nat) (p : bgp_proto) :
    (bgp_update_startup_delay now p).stop_calls = p.stop_calls := by
  simp only [bgp_update_startup_delay]; split_ifs <;> rfl

@[simp]
theorem ev_schedule_getConn (p : bgp_proto) (cid : ConnId) :
    (ev_schedule p).getConn cid = p.getConn cid := by
  cases cid <;> rfl

@[simp]
theorem ev_schedule_proto_state (p : bgp_proto) :
    (ev_schedule p).proto_state = p.proto_state := rfl

@[simp]
theorem ev_schedule_conn (p : bgp_proto) : (ev_schedule p).conn = p.conn := rfl

@[simp]
theorem ev_schedule_usd_calls (p : bgp_proto) : (ev_schedule p).usd_calls = p.usd_calls := rfl

@[simp]
theorem ev_schedule_stop_calls (p : bgp_proto) : (ev_schedule p).stop_calls = p.stop_calls := rfl

@[simp]
theorem ev_schedule_last_error_class (p : bgp_proto) :
    (ev_schedule p).last_error_class = p.last_error_class := rfl

@[simp]
theorem ev_schedule_last_error_code (p : bgp_proto) :
    (ev_schedule p).last_error_code = p.last_error_code := rfl

theorem exec_graceful_stopped (now f : Nat) (cid : ConnId) (subcode : Nat) (p : bgp_proto)
    (h : p.proto_state = PS_STOP) :
    bgpExec now (f + 4) (callGraceful cid subcode) p = bgp_graceful_stopped cid subcode p := by
  rw [exec_graceful_step]
  cases hst : (p.getConn cid).state
  case BS_IDLE | BS_CLOSE => simp [bgp_graceful_stopped, hst]
  case BS_CONNECT | BS_ACTIVE =>
    rw [exec_idle_step]
    simp only [hst, bgp_graceful_stopped]
    simp [updateConn_updateConn]
  case BS_OPENSENT | BS_OPENCONFIRM =>
    rw [exec_error_step]
    simp only [hst]
    rw [exec_close_step]
    simp only [store_error_getConn, hst, bgp_store_error, h]
    simp [bgp_graceful_stopped, hst, updateConn_updateConn]
  case BS_ESTABLISHED =>
    rw [exec_error_step]
    simp only [hst]
    rw [exec_close_step]
    simp only [store_error_getConn, hst, bgp_store_error, h]
    rw [exec_leave_step]
    simp only [bgp_graceful_stopped, hst, h]
    cases cid <;>
      (simp only [bgp_proto.getConn] at hst
       simp [h, hst, updateConn_updateConn, updateConn_conn_none, bgp_proto.updateConn,
         bgp_proto.setConn, bgp_proto.getConn, ev_schedule])

theorem exec_stop_eq (now f subcode : Nat) (p : bgp_proto) :
    bgpExec now (f + 5) (callStop subcode) p = bgp_stop_closed subcode p := by
  rw [exec_stop_step]
  rw [exec_graceful_stopped now f ConnId.outgoing subcode _ rfl]
  rw [exec_graceful_stopped now f ConnId.incoming subcode _
    (by rw [graceful_stopped_proto_state]; rfl)]
  rfl

@[simp]
theorem stop_closed_proto_state (s : Nat) (p : bgp_proto) :
    (bgp_stop_closed s p).proto_state = PS_STOP := by
  simp [bgp_stop_closed, proto_notify_state]

@[simp]
theorem stop_closed_usd_calls (s : Nat) (p : bgp_proto) :
    (bgp_stop_closed s p).usd_calls = p.usd_calls := by
  simp [bgp_stop_closed, proto_notify_state]

@[simp]
theorem stop_closed_stop_calls (s : Nat) (p : bgp_proto) :
    (bgp_stop_closed s p).stop_calls = p.stop_calls + 1 := by
  simp [bgp_stop_closed, proto_notify_state]

@[simp]
theorem stop_closed_last_error_class (s : Nat) (p : bgp_proto) :
    (bgp_stop_closed s p).last_error_class = p.last_error_class := by
  simp [bgp_stop_closed, proto_notify_state]

@[simp]
theorem stop_closed_last_error_code (s : Nat) (p : bgp_proto) :
    (bgp_stop_closed s p).last_error_code = p.last_error_code := by
  simp [bgp_stop_closed, proto_notify_state]

@[simp]
theorem notify_state_getConn (p : bgp_proto) (ps : ProtoState) (cid : ConnId) :
    (proto_notify_state p ps).getConn cid = p.getConn cid := by
  cases cid <;> rfl

theorem conn_mk_getConn (p : bgp_proto) (cid : ConnId) (oc : Option ConnId) :
    bgp_proto.getConn { p with conn := oc } cid = p.getConn cid := by
  cases cid <;> rfl

theorem stop_calls_mk_getConn (p : bgp_proto) (cid : ConnId) (n : Nat) :
    bgp_proto.getConn { p with stop_calls := n } cid = p.getConn cid := by
  cases cid <;> rfl

theorem stop_closed_getConn_close (s : Nat) (p : bgp_proto) (cid : ConnId)
    (h : (p.getConn cid).state = BS_CLOSE) :
    (bgp_stop_closed s p).getConn cid = p.getConn cid := by
  unfold bgp_stop_closed
  rw [ev_schedule_getConn]
  rw [graceful_stopped_getConn_close _ _ _ _
    (by
      rw [graceful_stopped_getConn_close _ _ _ _
        (by rw [notify_state_getConn, stop_calls_mk_getConn]; exact h)]
      rw [notify_state_getConn, stop_calls_mk_getConn]; exact h)]
  rw [graceful_stopped_getConn_close _ _ _ _
    (by rw [notify_state_getConn, stop_calls_mk_getConn]; exact h)]
  rw [notify_state_getConn, stop_calls_mk_getConn]

/-- How a graceful close (with the peer already stopping) transforms a
single connection, as a function of the connection alone. -/
def graceful_conn_transform (s : Nat) (c : bgp_conn) : bgp_conn :=
  match c.state with
  | BS_IDLE | BS_CLOSE => c
  | BS_CONNECT | BS_ACTIVE => { bgp_close_conn c with state := BS_IDLE }
  | BS_OPENSENT | BS_OPENCONFIRM | BS_ESTABLISHED =>
    bgp_schedule_packet
      { conn_close_transform c with
          notify_code := 6, notify_subcode := s,
          notify_data := none, notify_size := 0 }
      PKT_NOTIFICATION

theorem graceful_stopped_getConn_self (cid : ConnId) (s : Nat) (p : bgp_proto) :
    (bgp_graceful_stopped cid s p).getConn cid = graceful_conn_transform s (p.getConn cid) := by
  cases cid
  case incoming =>
    unfold bgp_graceful_stopped graceful_conn_transform
    simp only [bgp_proto.getConn]
    cases hst : p.incoming_conn.state <;>
      simp [hst, ev_schedule, bgp_proto.updateConn, bgp_proto.setConn, bgp_proto.getConn]
  case outgoing =>
    unfold bgp_graceful_stopped graceful_conn_transform
    simp only [bgp_proto.getConn]
    cases hst : p.outgoing_conn.state <;>
      simp [hst, ev_schedule, bgp_proto.updateConn, bgp_proto.setConn, bgp_proto.getConn]

theorem stop_closed_getConn (s : Nat) (p : bgp_proto) (cid : ConnId) :
    (bgp_stop_closed s p).getConn cid = graceful_conn_transform s (p.getConn cid) := by
  unfold bgp_stop_closed
  rw [ev_schedule_getConn]
  cases cid
  case incoming =>
    rw [graceful_stopped_getConn_self]
    rw [graceful_stopped_getConn_other ConnId.outgoing ConnId.incoming s _ (by simp)]
    rw [notify_state_getConn, stop_calls_mk_getConn]
  case outgoing =>
    rw [graceful_stopped_getConn_other ConnId.incoming ConnId.outgoing s _ (by simp)]
    rw [graceful_stopped_getConn_self]
    rw [notify_state_getConn, stop_calls_mk_getConn]

theorem bgp_stop_eq_closed (now : Nat) (p : bgp_proto) (s : Nat) :
    bgp_stop now p s = bgp_stop_closed s p := by
  unfold bgp_stop BGP_FUEL
  exact exec_stop_eq now 27 s p

theorem schedule_packet_testBit (c : bgp_conn) (t : Nat) :
    (bgp_schedule_packet c t).packets_to_send.testBit t = true := by
  simp [bgp_schedule_packet, Nat.testBit_or, Nat.shiftLeft_eq, Nat.testBit_two_pow_self]

/-- C9: `bgp_stop(p, s)` closes each of the peer's two connections
gracefully according to its state: a connection in Idle or Close is
left unchanged; a connection in Connect or Active goes directly to
Idle with its packet queue cleared (so no Notification is queued for
it) and its socket released; a connection in OpenSent, OpenConfirm or
Established enters Close with a Cease Notification (code 6, subcode s)
queued. -/
theorem bgp_stop_per_conn (now : Nat) (p : bgp_proto) (s : Nat) (cid : ConnId) :
    (((p.getConn cid).state = BS_IDLE ∨ (p.getConn cid).state = BS_CLOSE) →
       (bgp_stop now p s).getConn cid = p.getConn cid)
    ∧ (((p.getConn cid).state = BS_CONNECT ∨ (p.getConn cid).state = BS_ACTIVE) →
       ((bgp_stop now p s).getConn cid).state = BS_IDLE
       ∧ ((bgp_stop now p s).getConn cid).packets_to_send = 0
       ∧ ((bgp_stop now p s).getConn cid).sk = none)
    ∧ (((p.getConn cid).state = BS_OPENSENT ∨ (p.getConn cid).state = BS_OPENCONFIRM ∨
         (p.getConn cid).state = BS_ESTABLISHED) →
       ((bgp_stop now p s).getConn cid).state = BS_CLOSE
       ∧ ((bgp_stop now p s).getConn cid).notify_code = 6
       ∧ ((bgp_stop now p s).getConn cid).notify_subcode = s
       ∧ ((bgp_stop now p s).getConn cid).packets_to_send.testBit PKT_NOTIFICATION = true) := by
  rw [bgp_stop_eq_closed, stop_closed_getConn]
  unfold graceful_conn_transform
  cases hst : (p.getConn cid).state <;>
    simp [hst, bgp_close_conn, conn_close_transform, bgp_schedule_packet,
      Nat.testBit_or, Nat.shiftLeft_eq, Nat.testBit_two_pow_self]

/-- C9 (witness): stopping a peer whose outgoing connection is
Established with subcode 2 leaves it in Close with a queued (6, 2)
Notification. -/
theorem bgp_stop_per_conn_witness :
    ((({ basePeer with
          outgoing_conn := { idleConn with state := BS_ESTABLISHED } } : bgp_proto).getConn
            ConnId.outgoing).state = BS_OPENSENT ∨
      (({ basePeer with
          outgoing_conn := { idleConn with state := BS_ESTABLISHED } } : bgp_proto).getConn
            ConnId.outgoing).state = BS_OPENCONFIRM ∨
      (({ basePeer with
          outgoing_conn := { idleConn with state := BS_ESTABLISHED } } : bgp_proto).getConn
            ConnId.outgoing).state = BS_ESTABLISHED)
    ∧ ((bgp_stop 0 { basePeer with
          outgoing_conn := { idleConn with state := BS_ESTABLISHED } } 2).getConn
            ConnId.outgoing).state = BS_CLOSE
    ∧ ((bgp_stop 0 { basePeer with
          outgoing_conn := { idleConn with state := BS_ESTABLISHED } } 2).getConn
            ConnId.outgoing).notify_code = 6
    ∧ ((bgp_stop 0 { basePeer with
          outgoing_conn := { idleConn with state := BS_ESTABLISHED } } 2).getConn
            ConnId.outgoing).notify_subcode = 2
    ∧ ((bgp_stop 0 { basePeer with
          outgoing_conn := { idleConn with state := BS_ESTABLISHED } } 2).getConn
            ConnId.outgoing).packets_to_send.testBit PKT_NOTIFICATION = true := by
  refine ⟨by decide, ?_⟩
  exact (bgp_stop_per_conn 0
    { basePeer with outgoing_conn := { idleConn with state := BS_ESTABLISHED } } 2
    ConnId.outgoing).2.2 (by decide)

/-- C10: entering Established on a connection makes it the peer's
session connection (`p->conn`), resets both `last_error_class` and
`last_error_code` to 0 (so the status reports no previous error),
sets the connection state to Established and notifies the protocol
layer Up. -/
theorem bgp_conn_enter_established_ok (p : bgp_proto) (cid : ConnId) :
    (bgp_conn_enter_established_state p cid).conn = some cid
    ∧ (bgp_conn_enter_established_state p cid).last_error_class = 0
    ∧ (bgp_conn_enter_established_state p cid).last_error_code = 0
    ∧ ((bgp_conn_enter_established_state p cid).getConn cid).state = BS_ESTABLISHED
    ∧ (bgp_conn_enter_established_state p cid).proto_state = PS_UP := by
  unfold bgp_conn_enter_established_state proto_notify_state
  cases cid <;> simp [bgp_proto.updateConn, bgp_proto.setConn, bgp_proto.getConn]

theorem graceful_conn_transform_close (s : Nat) (c : bgp_conn) (h : c.state = BS_CLOSE) :
    graceful_conn_transform s c = c := by
  unfold graceful_conn_transform
  rw [h]

/-- The state reached inside `bgp_error` after storing the error,
entering Close (with its possible leave-Established/stop cascade) and
queueing the Notification, before the non-Cease back-off and stop. -/
def bgp_error_mid (p : bgp_proto) (cid : ConnId) (code subcode : Nat)
    (data : Option (List Nat)) (len : Int) : bgp_proto :=
  let p1 := bgp_store_error p (some cid) BE_BGP_TX ((code <<< 16) ||| subcode)
  let p2 :=
    if (p.getConn cid).state = BS_ESTABLISHED then
      (if p.proto_state = PS_UP then
        bgp_stop_closed 0 { p1.updateConn cid conn_close_transform with conn := none }
       else { p1.updateConn cid conn_close_transform with conn := none })
    else p1.updateConn cid conn_close_transform
  let p3 := p2.updateConn cid (fun c =>
    { c with notify_code := code, notify_subcode := subcode,
             notify_data := data, notify_size := if len > 0 then len.toNat else 0 })
  p3.updateConn cid (fun c => bgp_schedule_packet c PKT_NOTIFICATION)

/-- Characterization of `bgp_error` on a connection not already in
Close, with the teardown cascade (`enter_close` → leave Established →
`bgp_stop`) resolved into the closed form `bgp_stop_closed`. -/
theorem bgp_error_char (now : Nat) (p : bgp_proto) (cid : ConnId) (code subcode : Nat)
    (data : Option (List Nat)) (len : Int)
    (hcl : (p.getConn cid).state ≠ BS_CLOSE) :
    bgp_error now p cid code subcode data len =
      (if code ≠ 6 then
        bgp_stop_closed 0
          (bgp_update_startup_delay now (bgp_error_mid p cid code subcode data len))
       else bgp_error_mid p cid code subcode data len) := by
  unfold bgp_error BGP_FUEL
  rw [exec_error_step]
  rw [if_neg hcl]
  rw [exec_close_step]
  simp only [store_error_getConn]
  by_cases hest : (p.getConn cid).state = BS_ESTABLISHED
  · rw [if_pos hest]
    rw [exec_leave_step]
    simp only [updateConn_proto_state, store_error_proto_state]
    by_cases hup : p.proto_state = PS_UP
    · rw [if_pos hup]
      rw [exec_stop_eq now 24]
      by_cases hc6 : code ≠ 6
      · rw [if_pos hc6, exec_stop_eq now 26]
        simp [bgp_error_mid, hest, hup, hc6]
      · rw [if_neg hc6]
        simp [bgp_error_mid, hest, hup, hc6]
    · rw [if_neg hup]
      by_cases hc6 : code ≠ 6
      · rw [if_pos hc6, exec_stop_eq now 26]
        simp [bgp_error_mid, hest, hup, hc6]
      · rw [if_neg hc6]
        simp [bgp_error_mid, hest, hup, hc6]
  · rw [if_neg hest]
    by_cases hc6 : code ≠ 6
    · rw [if_pos hc6, exec_stop_eq now 26]
      simp [bgp_error_mid, hest, hc6]
    · rw [if_neg hc6]
      simp [bgp_error_mid, hest, hc6]

theorem getConn_incoming (p : bgp_proto) : p.getConn ConnId.incoming = p.incoming_conn := rfl

theorem getConn_outgoing (p : bgp_proto) : p.getConn ConnId.outgoing = p.outgoing_conn := rfl

theorem updateConn_inc_inc (p : bgp_proto) (f : bgp_conn → bgp_conn) :
    (p.updateConn ConnId.incoming f).incoming_conn = f p.incoming_conn := rfl

theorem updateConn_inc_out (p : bgp_proto) (f : bgp_conn → bgp_conn) :
    (p.updateConn ConnId.incoming f).outgoing_conn = p.outgoing_conn := rfl

theorem updateConn_out_out (p : bgp_proto) (f : bgp_conn → bgp_conn) :
    (p.updateConn ConnId.outgoing f).outgoing_conn = f p.outgoing_conn := rfl

theorem updateConn_out_inc (p : bgp_proto) (f : bgp_conn → bgp_conn) :
    (p.updateConn ConnId.outgoing f).incoming_conn = p.incoming_conn := rfl

theorem store_error_incoming_conn (p : bgp_proto) (c : Option ConnId) (cls code : Nat) :
    (bgp_store_error p c cls code).incoming_conn = p.incoming_conn := by
  unfold bgp_store_error; split_ifs <;> rfl

theorem store_error_outgoing_conn (p : bgp_proto) (c : Option ConnId) (cls code : Nat) :
    (bgp_store_error p c cls code).outgoing_conn = p.outgoing_conn := by
  unfold bgp_store_error; split_ifs <;> rfl

theorem bgp_error_mid_getConn (p : bgp_proto) (cid : ConnId) (code subcode : Nat)
    (data : Option (List Nat)) (len : Int) :
    (bgp_error_mid p cid code subcode data len).getConn cid =
      bgp_schedule_packet
        { conn_close_transform (p.getConn cid) with
            notify_code := code, notify_subcode := subcode,
            notify_data := data, notify_size := if len > 0 then len.toNat else 0 }
        PKT_NOTIFICATION := by
  unfold bgp_error_mid
  by_cases hest : (p.getConn cid).state = BS_ESTABLISHED
  · by_cases hup : p.proto_state = PS_UP
    · simp only [hest, hup, if_true, ite_true, getConn_updateConn_same,
        stop_closed_getConn, conn_mk_getConn, store_error_getConn]
      rw [graceful_conn_transform_close 0 _ (by simp [conn_close_transform])]
    · cases cid <;>
        (simp only [bgp_proto.getConn] at hest
         simp [hest, hup, getConn_incoming, getConn_outgoing, updateConn_inc_inc,
           updateConn_inc_out, updateConn_out_out, updateConn_out_inc,
           store_error_incoming_conn, store_error_outgoing_conn])
  · cases cid <;>
      (simp only [bgp_proto.getConn] at hest
       simp [hest, getConn_incoming, getConn_outgoing, updateConn_inc_inc,
         updateConn_inc_out, updateConn_out_out, updateConn_out_inc,
         store_error_incoming_conn, store_error_outgoing_conn])

theorem bgp_error_mid_usd_calls (p : bgp_proto) (cid : ConnId) (code subcode : Nat)
    (data : Option (List Nat)) (len : Int) :
    (bgp_error_mid p cid code subcode data len).usd_calls = p.usd_calls := by
  unfold bgp_error_mid
  by_cases hest : (p.getConn cid).state = BS_ESTABLISHED <;>
    by_cases hup : p.proto_state = PS_UP <;>
    simp [hest, hup]

theorem bgp_error_mid_stop_calls (p : bgp_proto) (cid : ConnId) (code subcode : Nat)
    (data : Option (List Nat)) (len : Int) :
    p.stop_calls ≤ (bgp_error_mid p cid code subcode data len).stop_calls := by
  unfold bgp_error_mid
  by_cases hest : (p.getConn cid).state = BS_ESTABLISHED <;>
    by_cases hup : p.proto_state = PS_UP <;>
    simp [hest, hup]

theorem bgp_error_mid_last_error (p : bgp_proto) (cid : ConnId) (code subcode : Nat)
    (data : Option (List Nat)) (len : Int)
    (h1 : p.proto_state ≠ PS_STOP)
    (h2 : ¬ (p.proto_state = PS_UP ∧ some cid ≠ p.conn)) :
    (bgp_error_mid p cid code subcode data len).last_error_class = BE_BGP_TX
    ∧ (bgp_error_mid p cid code subcode data len).last_error_code = (code <<< 16) ||| subcode := by
  have hstore : bgp_store_error p (some cid) BE_BGP_TX ((code <<< 16) ||| subcode) =
      { p with last_error_class := BE_BGP_TX, last_error_code := (code <<< 16) ||| subcode } := by
    unfold bgp_store_error
    rw [if_neg (by
      intro hh
      exact h2 ⟨hh.1, hh.2.2⟩)]
    rw [if_neg h1]
  unfold bgp_error_mid
  rw [hstore]
  by_cases hest : (p.getConn cid).state = BS_ESTABLISHED <;>
    by_cases hup : p.proto_state = PS_UP <;>
    simp [hest, hup]

theorem bgp_error_getConn_self (now : Nat) (p : bgp_proto) (cid : ConnId)
    (code subcode : Nat) (data : Option (List Nat)) (len : Int)
    (hcl : (p.getConn cid).state ≠ BS_CLOSE) :
    (bgp_error now p cid code subcode data len).getConn cid =
      bgp_schedule_packet
        { conn_close_transform (p.getConn cid) with
            notify_code := code, notify_subcode := subcode,
            notify_data := data, notify_size := if len > 0 then len.toNat else 0 }
        PKT_NOTIFICATION := by
  rw [bgp_error_char now p cid code subcode data len hcl]
  by_cases hc6 : code ≠ 6
  · rw [if_pos hc6, stop_closed_getConn, usd_getConn, bgp_error_mid_getConn]
    rw [graceful_conn_transform_close 0 _ (by simp [bgp_schedule_packet, conn_close_transform])]
  · rw [if_neg hc6, bgp_error_mid_getConn]

/-- C1 (counterexample state): a peer already stopping (`PS_STOP`)
whose outgoing connection is in OpenSent with an attached socket. -/
def exC1 : bgp_proto :=
  { basePeer with
      proto_state := PS_STOP,
      outgoing_conn :=
        { idleConn with
            state := BS_OPENSENT,
            sk := some { daddr := 100, rx_hook := true, tx_hook := true,
                         rx_ready := 0, ttl := 1 } } }

/-- C1 (counterexample): `bgp_error` on a peer in `PS_STOP` moves the
connection to Close and queues the Notification, but does NOT store
the last error as `(BgpTx, (code<<16)|sub)`: `bgp_store_error` ignores
errors while the peer is stopping, so the claim's unconditional "the
peer's last error is stored" is false (here it stays 0 instead of
becoming `(1<<16)|1 = 65537`). -/
theorem bgp_error_claim_false :
    ((bgp_error 0 exC1 ConnId.outgoing 1 1 none 0).getConn ConnId.outgoing).state = BS_CLOSE
    ∧ (bgp_error 0 exC1 ConnId.outgoing 1 1 none 0).last_error_class = 0
    ∧ (bgp_error 0 exC1 ConnId.outgoing 1 1 none 0).last_error_code = 0
    ∧ (bgp_error 0 exC1 ConnId.outgoing 1 1 none 0).last_error_code ≠ (1 <<< 16) ||| 1 := by
  refine ⟨by decide, by decide, by decide, by decide⟩

/-- C1 (amended): `bgp_error(c, code, sub, data, len)` is a no-op when
`c` is already in Close.  Otherwise, within the same tick: `c` enters
Close with a Notification carrying `(code, sub)` queued on it;
`bgp_update_startup_delay` is invoked exactly when `code ≠ 6`; when
`code ≠ 6` the peer is stopped (`bgp_stop` is invoked and the protocol
state becomes Stop; for `code = 6` the peer may also be stopped, via
leaving Established while Up); and the peer's last error is stored as
`(BgpTx, (code<<16)|sub)` provided the store filter admits it — the
peer is not already stopping, and not Up with `c` different from the
session connection. -/
theorem bgp_error_ok (now : Nat) (p : bgp_proto) (cid : ConnId) (code subcode : Nat)
    (data : Option (List Nat)) (len : Int) :
    ((p.getConn cid).state = BS_CLOSE → bgp_error now p cid code subcode data len = p)
    ∧ ((p.getConn cid).state ≠ BS_CLOSE →
        (bgp_error now p cid code subcode data len).getConn cid =
          bgp_schedule_packet
            { conn_close_transform (p.getConn cid) with
                notify_code := code, notify_subcode := subcode,
                notify_data := data, notify_size := if len > 0 then len.toNat else 0 }
            PKT_NOTIFICATION
        ∧ ((bgp_error now p cid code subcode data len).getConn cid).state = BS_CLOSE
        ∧ ((bgp_error now p cid code subcode data len).getConn cid).notify_code = code
        ∧ ((bgp_error now p cid code subcode data len).getConn cid).notify_subcode = subcode
        ∧ ((bgp_error now p cid code subcode data len).getConn
            cid).packets_to_send.testBit PKT_NOTIFICATION = true
        ∧ ((bgp_error now p cid code subcode data len).usd_calls = p.usd_calls + 1 ↔ code ≠ 6)
        ∧ (code ≠ 6 →
            p.stop_calls < (bgp_error now p cid code subcode data len).stop_calls
            ∧ (bgp_error now p cid code subcode data len).proto_state = PS_STOP)
        ∧ (p.proto_state ≠ PS_STOP → ¬ (p.proto_state = PS_UP ∧ some cid ≠ p.conn) →
            (bgp_error now p cid code subcode data len).last_error_class = BE_BGP_TX
            ∧ (bgp_error now p cid code subcode data len).last_error_code =
                (code <<< 16) ||| subcode)) := by
  constructor
  · intro hcl
    unfold bgp_error BGP_FUEL
    rw [exec_error_step, if_pos hcl]
  · intro hcl
    have hconn := bgp_error_getConn_self now p cid code subcode data len hcl
    refine ⟨hconn, ?_, ?_, ?_, ?_, ?_, ?_, ?_⟩
    · rw [hconn]; simp [bgp_schedule_packet, conn_close_transform]
    · rw [hconn]; simp [bgp_schedule_packet, conn_close_transform]
    · rw [hconn]; simp [bgp_schedule_packet, conn_close_transform]
    · rw [hconn]; exact schedule_packet_testBit _ _
    · rw [bgp_error_char now p cid code subcode data len hcl]
      by_cases hc6 : code ≠ 6
      · simp [hc6, bgp_error_mid_usd_calls]
      · simp [hc6, bgp_error_mid_usd_calls]
    · intro hc6
      rw [bgp_error_char now p cid code subcode data len hcl, if_pos hc6]
      constructor
      · have h1 := bgp_error_mid_stop_calls p cid code subcode data len
        simp only [stop_closed_stop_calls, usd_stop_calls]
        omega
      · simp
    · intro h1 h2
      have hmid := bgp_error_mid_last_error p cid code subcode data len h1 h2
      rw [bgp_error_char now p cid code subcode data len hcl]
      by_cases hc6 : code ≠ 6
      · simp [hc6, hmid.1, hmid.2]
      · simp [hc6, hmid.1, hmid.2]

/-- C1 (witness state): a peer in Start whose outgoing connection is
in OpenSent with an attached socket. -/
def exC1w : bgp_proto :=
  { basePeer with
      outgoing_conn :=
        { idleConn with
            state := BS_OPENSENT,
            sk := some { daddr := 100, rx_hook := true, tx_hook := true,
                         rx_ready := 0, ttl := 1 } } }

/-- C1 (witness for the amended theorem): issuing `bgp_error(2, 1)` on
the OpenSent outgoing connection of a Start peer queues the (2, 1)
Notification on the closed connection. -/
theorem bgp_error_ok_witness :
    (bgp_error 0 exC1w ConnId.outgoing 2 1 none 0).getConn ConnId.outgoing =
      bgp_schedule_packet
        { conn_close_transform (exC1w.getConn ConnId.outgoing) with
            notify_code := 2, notify_subcode := 1,
            notify_data := none, notify_size := if (0 : Int) > 0 then (0 : Int).toNat else 0 }
        PKT_NOTIFICATION :=
  ((bgp_error_ok 0 exC1w ConnId.outgoing 2 1 none 0).2 (by decide)).1

/-- C5: when the hold timer of a connection in Established fires:
if the socket has received bytes pending, only the hold timer is
restarted with nominal value 10 seconds and the connection stays in
its state; otherwise `bgp_error(conn, 4, 0)` is issued, taking the
connection to Close with a Notification (4, 0) queued. -/
theorem bgp_hold_timeout_ok (now : Nat) (p : bgp_proto) (cid : ConnId) (s : sock)
    (hsk : (p.getConn cid).sk = some s)
    (hest : (p.getConn cid).state = BS_ESTABLISHED) :
    (s.rx_ready > 0 →
      bgp_hold_timeout now p cid =
        p.updateConn cid (fun c =>
          { c with hold_timer := c.hold_timer.map (fun t => bgp_start_timer t 10) })
      ∧ ((bgp_hold_timeout now p cid).getConn cid).state = BS_ESTABLISHED)
    ∧ (¬ s.rx_ready > 0 →
      ((bgp_hold_timeout now p cid).getConn cid).state = BS_CLOSE
      ∧ ((bgp_hold_timeout now p cid).getConn cid).notify_code = 4
      ∧ ((bgp_hold_timeout now p cid).getConn cid).notify_subcode = 0
      ∧ ((bgp_hold_timeout now p cid).getConn
          cid).packets_to_send.testBit PKT_NOTIFICATION = true) := by
  have hcl : (p.getConn cid).state ≠ BS_CLOSE := by rw [hest]; simp
  constructor
  · intro hrx
    have hb : bgp_hold_timeout now p cid =
        p.updateConn cid (fun c =>
          { c with hold_timer := c.hold_timer.map (fun t => bgp_start_timer t 10) }) := by
      unfold bgp_hold_timeout
      rw [hsk]
      simp [hrx]
    refine ⟨hb, ?_⟩
    rw [hb]
    simp [hest]
  · intro hrx
    have hb : bgp_hold_timeout now p cid = bgp_error now p cid 4 0 none 0 := by
      unfold bgp_hold_timeout
      rw [hsk]
      simp [hrx]
    rw [hb, bgp_error_getConn_self now p cid 4 0 none 0 hcl]
    refine ⟨?_, ?_, ?_, schedule_packet_testBit _ _⟩ <;>
      simp [bgp_schedule_packet, conn_close_transform]

/-- C5 (witness socket): 5 bytes pending. -/
def exSock5 : sock :=
  { daddr := 100, rx_hook := true, tx_hook := true, rx_ready := 5, ttl := 1 }

/-- C5 (witness state): an Up peer with an Established outgoing
session connection whose socket has bytes pending. -/
def exC5 : bgp_proto :=
  { basePeer with
      proto_state := PS_UP,
      conn := some ConnId.outgoing,
      outgoing_conn :=
        { idleConn with
            state := BS_ESTABLISHED,
            sk := some exSock5,
            hold_timer := some { expires := some 180, randomize := 60 } } }

/-- C5 (witness): on the congested Established connection the hold
timeout only restarts the hold timer with nominal 10 seconds. -/
theorem bgp_hold_timeout_ok_witness :
    bgp_hold_timeout 0 exC5 ConnId.outgoing =
      exC5.updateConn ConnId.outgoing (fun c =>
        { c with hold_timer := c.hold_timer.map (fun t => bgp_start_timer t 10) })
    ∧ ((bgp_hold_timeout 0 exC5 ConnId.outgoing).getConn ConnId.outgoing).state =
        BS_ESTABLISHED :=
  (bgp_hold_timeout_ok 0 exC5 ConnId.outgoing exSock5 (by decide) (by decide)).1 (by decide)

theorem incoming_peer_accepted (p : bgp_proto) (s : sock) (hacc : bgp_incoming_acc p) :
    (bgp_incoming_connection_peer p s).2 = true
    ∧ (bgp_incoming_connection_peer p s).1.incoming_conn.state = BS_OPENSENT
    ∧ (bgp_incoming_connection_peer p s).1.incoming_conn.sk =
        some { s with rx_hook := true, tx_hook := true,
                      ttl := if p.cf.multihop ≠ 0 then p.cf.multihop else 1 }
    ∧ (bgp_incoming_connection_peer p s).1.incoming_conn.packets_to_send.testBit
        PKT_OPEN = true
    ∧ (bgp_incoming_connection_peer p s).1.incoming_conn.hold_timer =
        some (bgp_start_timer tm_new p.cf.initial_hold_time) := by
  unfold bgp_incoming_connection_peer bgp_send_open
  simp only [if_pos hacc]
  simp [bgp_setup_conn, bgp_setup_sk, bgp_schedule_packet, updateConn_inc_inc,
    getConn_incoming, bgp_proto.updateConn, bgp_proto.setConn, bgp_proto.getConn,
    PKT_OPEN]
  decide

theorem incoming_peer_rejected (p : bgp_proto) (s : sock) (hacc : ¬ bgp_incoming_acc p) :
    bgp_incoming_connection_peer p s = (p, false) := by
  unfold bgp_incoming_connection_peer
  rw [if_neg hacc]

theorem incoming_no_match (ps : List bgp_proto) (s : sock)
    (h : ∀ q ∈ ps, q.cf.remote_ip ≠ s.daddr) :
    bgp_incoming_connection ps s = (ps, true) := by
  induction ps with
  | nil => rfl
  | cons q rest ih =>
    unfold bgp_incoming_connection
    rw [if_neg (h q (List.mem_cons_self q rest))]
    rw [ih (fun r hr => h r (List.mem_cons_of_mem q hr))]

/-- C3: for an inbound TCP connection whose remote address equals a
configured peer's `remote_ip` (and no earlier peer in the list
matches), the connection is accepted if and only if the peer's
protocol state is Start or Up, its startup state is at least Connect,
and its incoming slot holds no socket.  When accepted, a fresh
connection is set up in the incoming slot on this socket (entering
OpenSent with an Open scheduled and the hold timer started); when
rejected, or when no configured peer matches, the socket is freed
(the second component of the result is the freed flag). -/
theorem bgp_incoming_connection_ok :
    (∀ (ps : List bgp_proto) (s : sock),
       (∀ q ∈ ps, q.cf.remote_ip ≠ s.daddr) →
       bgp_incoming_connection ps s = (ps, true))
    ∧ (∀ (pre post : List bgp_proto) (p : bgp_proto) (s : sock),
       (∀ q ∈ pre, q.cf.remote_ip ≠ s.daddr) →
       p.cf.remote_ip = s.daddr →
       (((bgp_incoming_connection (pre ++ p :: post) s).2 = false ↔ bgp_incoming_acc p)
        ∧ (bgp_incoming_acc p →
            bgp_incoming_connection (pre ++ p :: post) s =
              (pre ++ (bgp_incoming_connection_peer p s).1 :: post, false)
            ∧ (bgp_incoming_connection_peer p s).1.incoming_conn.state = BS_OPENSENT
            ∧ (bgp_incoming_connection_peer p s).1.incoming_conn.sk =
                some { s with rx_hook := true, tx_hook := true,
                              ttl := if p.cf.multihop ≠ 0 then p.cf.multihop else 1 }
            ∧ (bgp_incoming_connection_peer p s).1.incoming_conn.packets_to_send.testBit
                PKT_OPEN = true)
        ∧ (¬ bgp_incoming_acc p →
            bgp_incoming_connection (pre ++ p :: post) s = (pre ++ p :: post, true)))) := by
  constructor
  · exact incoming_no_match
  · intro pre post p s hpre hp
    induction pre with
    | nil =>
      simp only [List.nil_append]
      unfold bgp_incoming_connection
      rw [if_pos hp]
      by_cases hacc : bgp_incoming_acc p
      · have h1 := incoming_peer_accepted p s hacc
        refine ⟨?_, ?_, ?_⟩
        · simp [h1.1, hacc]
        · intro _
          exact ⟨by simp [h1.1], h1.2.1, h1.2.2.1, h1.2.2.2.1⟩
        · intro hno; exact absurd hacc hno
      · rw [incoming_peer_rejected p s hacc]
        refine ⟨?_, ?_, ?_⟩
        · simp [hacc]
        · intro hyes; exact absurd hyes hacc
        · intro _; simp
    | cons q rest ih =>
      have hq : q.cf.remote_ip ≠ s.daddr := hpre q (List.mem_cons_self q rest)
      have hrest : ∀ r ∈ rest, r.cf.remote_ip ≠ s.daddr :=
        fun r hr => hpre r (List.mem_cons_of_mem q hr)
      have ih' := ih hrest
      simp only [List.cons_append]
      unfold bgp_incoming_connection
      rw [if_neg hq]
      refine ⟨?_, ?_, ?_⟩
      · simpa using ih'.1
      · intro hacc
        have h2 := ih'.2.1 hacc
        refine ⟨?_, h2.2.1, h2.2.2.1, h2.2.2.2⟩
        simp [h2.1]
      · intro hacc
        have h3 := ih'.2.2 hacc
        simp [h3]

/-- C3 (witness socket). -/
def exSock3 : sock :=
  { daddr := 100, rx_hook := false, tx_hook := false, rx_ready := 0, ttl := 64 }

/-- C3 (witness): for a one-element peer list whose peer (in Start,
startup state Connect, empty incoming slot) matches the socket's
remote address, the connection is accepted. -/
theorem bgp_incoming_connection_ok_witness :
    ((bgp_incoming_connection ([] ++ basePeer :: []) exSock3).2 = false ↔
      bgp_incoming_acc basePeer)
    ∧ (bgp_incoming_acc basePeer →
        bgp_incoming_connection ([] ++ basePeer :: []) exSock3 =
          ([] ++ (bgp_incoming_connection_peer basePeer exSock3).1 :: [], false)
        ∧ (bgp_incoming_connection_peer basePeer exSock3).1.incoming_conn.state = BS_OPENSENT
        ∧ (bgp_incoming_connection_peer basePeer exSock3).1.incoming_conn.sk =
            some { exSock3 with rx_hook := true, tx_hook := true,
                                ttl := if basePeer.cf.multihop ≠ 0 then
                                         basePeer.cf.multihop
                                       else 1 }
        ∧ (bgp_incoming_connection_peer
            basePeer exSock3).1.incoming_conn.packets_to_send.testBit PKT_OPEN = true)
    ∧ (¬ bgp_incoming_acc basePeer →
        bgp_incoming_connection ([] ++ basePeer :: []) exSock3 =
          ([] ++ basePeer :: [], true)) :=
  (bgp_incoming_connection_ok.2 [] [] basePeer exSock3 (by simp) (by decide))

/-- The non-password part of a configuration: the region compared by
`memcmp` in `bgp_reconfigure` covers every `bgp_config` field after
the `proto_config` header up to (excluding) `password`, which is the
last field. -/
def bgp_config_erase_password (c : bgp_config) : bgp_config := { c with password := none }

/-- The password comparison of `bgp_reconfigure`:
`(!o && !n) || (o && n && !strcmp(o, n))`. -/
def password_same : Option String → Option String → Bool
  | none, none => true
  | some a, some b => a == b
  | _, _ => false

/-- bgp_reconfigure: "same" iff every non-password byte of the two
configurations matches and the passwords are string-equal; when same,
the peer adopts the new configuration pointer. -/
def bgp_reconfigure (p : bgp_proto) (nw : bgp_config) : bgp_proto × Bool :=
  let old := p.cf
  let same :=
    decide (bgp_config_erase_password old = bgp_config_erase_password nw)
      && password_same old.password nw.password
  (if same then { p with cf := nw } else p, same)

theorem password_same_iff (a b : Option String) :
    password_same a b = true ↔
      ((a = none ∧ b = none) ∨ ∃ x y, a = some x ∧ b = some y ∧ x = y) := by
  cases a <;> cases b <;> simp [password_same]

theorem erase_password_eq_iff (a b : bgp_config) :
    (bgp_config_erase_password a = bgp_config_erase_password b) =
      (a.local_as = b.local_as ∧ a.remote_as = b.remote_as
        ∧ a.remote_ip = b.remote_ip ∧ a.multihop = b.multihop
        ∧ a.multihop_via = b.multihop_via ∧ a.source_addr = b.source_addr
        ∧ a.ifname = b.ifname ∧ a.hold_time = b.hold_time
        ∧ a.initial_hold_time = b.initial_hold_time
        ∧ a.connect_retry_time = b.connect_retry_time
        ∧ a.keepalive_time = b.keepalive_time
        ∧ a.start_delay_time = b.start_delay_time
        ∧ a.error_amnesia_time = b.error_amnesia_time
        ∧ a.error_delay_time_min = b.error_delay_time_min
        ∧ a.error_delay_time_max = b.error_delay_time_max
        ∧ a.route_limit = b.route_limit
        ∧ a.next_hop_self = b.next_hop_self
        ∧ a.missing_lladdr = b.missing_lladdr
        ∧ a.compare_path_lengths = b.compare_path_lengths
        ∧ a.prefer_older = b.prefer_older
        ∧ a.default_med = b.default_med
        ∧ a.default_local_pref = b.default_local_pref
        ∧ a.rr_cluster_id = b.rr_cluster_id
        ∧ a.rr_client = b.rr_client ∧ a.rs_client = b.rs_client
        ∧ a.disable_after_error = b.disable_after_error
        ∧ a.enable_refresh = b.enable_refresh
        ∧ a.enable_as4 = b.enable_as4
        ∧ a.capabilities = b.capabilities
        ∧ a.advertise_ipv4 = b.advertise_ipv4
        ∧ a.passive = b.passive
        ∧ a.interpret_communities = b.interpret_communities) := by
  cases a
  cases b
  simp [bgp_config_erase_password, bgp_config.mk.injEq]

/-- C7: `bgp_reconfigure` returns "same" if and only if every
non-password field of the old and new configurations is equal and the
passwords are string-equal (both absent, or both present and equal);
when it returns "same" the peer adopts the new configuration pointer
and nothing else changes, and when it does not, the peer is left
unchanged. -/
theorem bgp_reconfigure_ok (p : bgp_proto) (nw : bgp_config) :
    ((bgp_reconfigure p nw).2 = true ↔
      (p.cf.local_as = nw.local_as ∧ p.cf.remote_as = nw.remote_as
        ∧ p.cf.remote_ip = nw.remote_ip ∧ p.cf.multihop = nw.multihop
        ∧ p.cf.multihop_via = nw.multihop_via ∧ p.cf.source_addr = nw.source_addr
        ∧ p.cf.ifname = nw.ifname ∧ p.cf.hold_time = nw.hold_time
        ∧ p.cf.initial_hold_time = nw.initial_hold_time
        ∧ p.cf.connect_retry_time = nw.connect_retry_time
        ∧ p.cf.keepalive_time = nw.keepalive_time
        ∧ p.cf.start_delay_time = nw.start_delay_time
        ∧ p.cf.error_amnesia_time = nw.error_amnesia_time
        ∧ p.cf.error_delay_time_min = nw.error_delay_time_min
        ∧ p.cf.error_delay_time_max = nw.error_delay_time_max
        ∧ p.cf.route_limit = nw.route_limit
        ∧ p.cf.next_hop_self = nw.next_hop_self
        ∧ p.cf.missing_lladdr = nw.missing_lladdr
        ∧ p.cf.compare_path_lengths = nw.compare_path_lengths
        ∧ p.cf.prefer_older = nw.prefer_older
        ∧ p.cf.default_med = nw.default_med
        ∧ p.cf.default_local_pref = nw.default_local_pref
        ∧ p.cf.rr_cluster_id = nw.rr_cluster_id
        ∧ p.cf.rr_client = nw.rr_client ∧ p.cf.rs_client = nw.rs_client
        ∧ p.cf.disable_after_error = nw.disable_after_error
        ∧ p.cf.enable_refresh = nw.enable_refresh
        ∧ p.cf.enable_as4 = nw.enable_as4
        ∧ p.cf.capabilities = nw.capabilities
        ∧ p.cf.advertise_ipv4 = nw.advertise_ipv4
        ∧ p.cf.passive = nw.passive
        ∧ p.cf.interpret_communities = nw.interpret_communities)
      ∧ ((p.cf.password = none ∧ nw.password = none) ∨
          ∃ x y, p.cf.password = some x ∧ nw.password = some y ∧ x = y))
    ∧ ((bgp_reconfigure p nw).2 = true → (bgp_reconfigure p nw).1 = { p with cf := nw })
    ∧ ((bgp_reconfigure p nw).2 = false → (bgp_reconfigure p nw).1 = p) := by
  refine ⟨?_, ?_, ?_⟩
  · unfold bgp_reconfigure
    simp only [Bool.and_eq_true, decide_eq_true_eq, password_same_iff,
      erase_password_eq_iff]
  · intro h
    unfold bgp_reconfigure at h ⊢
    dsimp only at h ⊢
    rw [if_pos h]
  · intro h
    unfold bgp_reconfigure at h ⊢
    dsimp only at h ⊢
    rw [if_neg (by simp [h])]

/-- C7 (witness): reconfiguring with an identical configuration is
"same" and the peer adopts the new configuration pointer. -/
theorem bgp_reconfigure_ok_witness :
    (bgp_reconfigure basePeer defaultConfig).1 = { basePeer with cf := defaultConfig } :=
  (bgp_reconfigure_ok basePeer defaultConfig).2.1 (by decide)

def bgp_state_names : List String :=
  ["Idle", "Connect", "Active", "OpenSent", "OpenConfirm", "Established", "Close"]

def bgp_err_classes : List String :=
  ["", "Error: ", "Socket: ", "Received: ", "BGP Error: ", "Automatic shutdown: ", ""]

def bgp_misc_errors : List String :=
  ["", "Neighbor lost", "Invalid next hop", "Kernel MD5 auth failed"]

def bgp_auto_errors : List String :=
  ["", "Route limit exceeded"]

/-- `%-14s`: left-align in a field of width 14. -/
def bsprintf_pad14 (x : String) : String :=
  x ++ String.mk (List.replicate (14 - x.length) ' ')

/-- bgp_get_status: build the status string.  `dsc` stands for the
external `bgp_error_dsc` (the packet codec's description of a BGP
(code, subcode) pair) and `strerror` for the C library's errno
description; both live outside the embedded file and are passed as
oracles. -/
def bgp_get_status (dsc : Nat → Nat → String) (strerror : Nat → String)
    (p : bgp_proto) : String :=
  let err1 := bgp_err_classes.getD p.last_error_class ""
  let err2 :=
    if p.last_error_class = BE_MISC then bgp_misc_errors.getD p.last_error_code ""
    else if p.last_error_class = BE_SOCKET then
      (if p.last_error_code = 0 then "Connection closed" else strerror p.last_error_code)
    else if p.last_error_class = BE_BGP_RX ∨ p.last_error_class = BE_BGP_TX then
      dsc (p.last_error_code >>> 16) (p.last_error_code &&& 255)
    else if p.last_error_class = BE_AUTO_DOWN then bgp_auto_errors.getD p.last_error_code ""
    else ""
  if p.proto_state = PS_DOWN then err1 ++ err2
  else
    bsprintf_pad14
        (bgp_state_names.getD (MAX p.incoming_conn.state.toNat p.outgoing_conn.state.toNat) "")
      ++ err1 ++ err2

/-- C8: the status string is "<class-prefix><message>" when the
protocol state is Down, and otherwise the same string prefixed (in a
14-wide left-aligned field) with the name of the highest of the two
connection states, chosen from Idle, Connect, Active, OpenSent,
OpenConfirm, Established, Close; for the BgpRx/BgpTx error classes the
message is decoded from `last_error_code` as code `e >> 16` and
subcode `e & 0xFF`, which inverts the `(code<<16)|subcode` encoding
whenever the subcode fits in a byte. -/
theorem bgp_get_status_ok (dsc : Nat → Nat → String) (strerror : Nat → String)
    (p : bgp_proto) (code sub : Nat) :
    (p.proto_state ≠ PS_DOWN →
      bgp_get_status dsc strerror p =
        bsprintf_pad14
            (bgp_state_names.getD
              (MAX p.incoming_conn.state.toNat p.outgoing_conn.state.toNat) "")
          ++ bgp_get_status dsc strerror { p with proto_state := PS_DOWN })
    ∧ ((p.last_error_class = BE_BGP_RX ∨ p.last_error_class = BE_BGP_TX) →
        bgp_get_status dsc strerror { p with proto_state := PS_DOWN } =
          bgp_err_classes.getD p.last_error_class ""
            ++ dsc (p.last_error_code >>> 16) (p.last_error_code &&& 255))
    ∧ (sub < 256 →
        ((code <<< 16) ||| sub) >>> 16 = code ∧ ((code <<< 16) ||| sub) &&& 255 = sub) := by
  refine ⟨?_, ?_, ?_⟩
  · intro hdown
    unfold bgp_get_status
    rw [if_neg hdown]
    rw [if_pos rfl]
    simp [String.append_assoc]
  · intro hcls
    unfold bgp_get_status
    rw [if_pos rfl]
    rcases hcls with h | h <;>
      simp [h, BE_MISC, BE_SOCKET, BE_BGP_RX, BE_BGP_TX, BE_AUTO_DOWN]
  · intro hsub
    constructor
    · apply Nat.eq_of_testBit_eq
      intro i
      rw [Nat.testBit_shiftRight, Nat.testBit_lor, Nat.testBit_shiftLeft]
      have hs : sub < 2 ^ (16 + i) := lt_of_lt_of_le (by omega : sub < 65536) (by
        have h1 : (65536 : Nat) = 2 ^ 16 := by norm_num
        rw [h1]
        exact Nat.pow_le_pow_right (by norm_num) (by omega))
      rw [Nat.testBit_lt_two_pow hs]
      simp
    · apply Nat.eq_of_testBit_eq
      intro i
      have h255 : (255 : Nat) = 2 ^ 8 - 1 := by norm_num
      rw [Nat.testBit_land, Nat.testBit_lor, Nat.testBit_shiftLeft, h255,
        Nat.testBit_two_pow_sub_one]
      by_cases hi : i < 8
      · have h16 : ¬ (16 ≤ i) := by omega
        simp [hi, h16]
      · have hs : sub.testBit i = false := Nat.testBit_lt_two_pow (lt_of_lt_of_le hsub (by
          have h1 : (256 : Nat) = 2 ^ 8 := by norm_num
          rw [h1]
          exact Nat.pow_le_pow_right (by norm_num) (by omega)))
        simp [hi, hs]

/-- C8 (witness state): an Up peer with a BgpTx last error encoding
(code 6, subcode 2) and an Established outgoing connection. -/
def exC8 : bgp_proto :=
  { basePeer with
      proto_state := PS_UP,
      last_error_class := BE_BGP_TX,
      last_error_code := (6 <<< 16) ||| 2,
      outgoing_conn := { idleConn with state := BS_ESTABLISHED } }

/-- C8 (witness): the status of `exC8` is the padded state name
"Established" followed by "BGP Error: " and the decoded (6, 2)
message. -/
theorem bgp_get_status_ok_witness :
    bgp_get_status (fun c s => toString c ++ "." ++ toString s) (fun _ => "") exC8 =
      bsprintf_pad14
          (bgp_state_names.getD
            (MAX exC8.incoming_conn.state.toNat exC8.outgoing_conn.state.toNat) "")
        ++ bgp_get_status (fun c s => toString c ++ "." ++ toString s) (fun _ => "")
            { exC8 with proto_state := PS_DOWN }
    ∧ bgp_get_status (fun c s => toString c ++ "." ++ toString s) (fun _ => "")
          { exC8 with proto_state := PS_DOWN } =
        bgp_err_classes.getD exC8.last_error_class ""
          ++ (fun c s => toString c ++ "." ++ toString s)
               (exC8.last_error_code >>> 16) (exC8.last_error_code &&& 255)
    ∧ ((6 <<< 16) ||| 2) >>> 16 = 6 ∧ ((6 <<< 16) ||| 2) &&& 255 = 2 := by
  have h := bgp_get_status_ok (fun c s => toString c ++ "." ++ toString s) (fun _ => "")
    exC8 6 2
  exact ⟨h.1 (by decide), h.2.1 (by decide), h.2.2 (by decide)⟩

/-- bgp_active: enter Active state on the outgoing connection and arm
the connect-retry timer with `max(1, start_delay_time)`. -/
def bgp_active (p : bgp_proto) : bgp_proto :=
  let delay := MAX 1 p.cf.start_delay_time
  let p1 := p.updateConn ConnId.outgoing bgp_setup_conn
  let p2 := p1.updateConn ConnId.outgoing (fun c => { c with state := BS_ACTIVE })
  p2.updateConn ConnId.outgoing (fun c =>
    { c with connect_retry_timer :=
        c.connect_retry_timer.map (fun t => bgp_start_timer t delay) })

/-- bgp_connect: create an active TCP socket towards the peer, set up
the outgoing connection on it, enter Connect, and either (socket open
succeeded, `ok`) arm the connect-retry timer with
`connect_retry_time`, or (failed) report the socket error, which
drives the connection to Idle. -/
def bgp_connect (now : Nat) (p : bgp_proto) (ok : Bool) : bgp_proto :=
  let s : sock :=
    { daddr := p.cf.remote_ip, rx_hook := false, tx_hook := true, rx_ready := 0,
      ttl := if p.cf.multihop ≠ 0 then p.cf.multihop else 1 }
  let p1 := p.updateConn ConnId.outgoing bgp_setup_conn
  let p2 := p1.updateConn ConnId.outgoing (fun c => bgp_setup_sk c s)
  let p3 := p2.updateConn ConnId.outgoing (fun c => { c with state := BS_CONNECT })
  if ok then
    p3.updateConn ConnId.outgoing (fun c =>
      { c with connect_retry_timer :=
          c.connect_retry_timer.map (fun t => bgp_start_timer t p.cf.connect_retry_time) })
  else bgp_sock_err now p3 ConnId.outgoing 0

/-- bgp_connect_timeout: while the protocol is still starting, release
the connection's resources and retry the outgoing connect; otherwise
enter Idle. -/
def bgp_connect_timeout (now : Nat) (p : bgp_proto) (cid : ConnId) (ok : Bool) : bgp_proto :=
  if p.proto_state = PS_START then
    bgp_connect now (p.updateConn cid bgp_close_conn) ok
  else bgp_conn_enter_idle_state now p cid

/-- bgp_connected: the TCP connect succeeded; send Open. -/
def bgp_connected (p : bgp_proto) (cid : ConnId) : bgp_proto :=
  bgp_send_open p cid

/-- Modelled from the spec: the hold timer is restarted (with the
configured hold time) on every message received on the connection. -/
def bgp_rx_restart_hold (p : bgp_proto) (cid : ConnId) : bgp_proto :=
  p.updateConn cid (fun c =>
    { c with hold_timer := c.hold_timer.map (fun t => bgp_start_timer t p.cf.hold_time) })

/-- The socket slot holds a socket whose receive hook is attached. -/
def skRxAttached : Option sock → Prop
  | none => False
  | some s0 => s0.rx_hook = true

instance : ∀ o : Option sock, Decidable (skRxAttached o) := by
  intro o
  cases o with
  | none => exact isFalse id
  | some s0 => exact inferInstanceAs (Decidable (s0.rx_hook = true))

/-- The socket slot holds a socket whose receive hook is detached. -/
def skRxDetachedPresent : Option sock → Prop
  | none => False
  | some s0 => s0.rx_hook = false

instance : ∀ o : Option sock, Decidable (skRxDetachedPresent o) := by
  intro o
  cases o with
  | none => exact isFalse id
  | some s0 => exact inferInstanceAs (Decidable (s0.rx_hook = false))

/-- The three states in which a connection has sent its Open. -/
def inOpenStates (st : BgpConnState) : Prop :=
  st = BS_OPENSENT ∨ st = BS_OPENCONFIRM ∨ st = BS_ESTABLISHED

instance (st : BgpConnState) : Decidable (inOpenStates st) := by
  unfold inOpenStates; infer_instance

/-- The per-connection invariant: (i) a connection in Close has its
hold and keepalive timers stopped and its socket still present with
the receive hook detached; (ii) past OpenSent the socket is present;
(iii) past OpenSent and in Close the connect-retry timer is stopped;
(iv) the hold timer runs only past OpenSent; (v) the receive hook is
attached only past OpenSent. -/
def bgp_conn_inv (c : bgp_conn) : Prop :=
  (c.state = BS_CLOSE →
    tmStopped c.hold_timer ∧ tmStopped c.keepalive_timer ∧ skRxDetachedPresent c.sk)
  ∧ (inOpenStates c.state → c.sk ≠ none)
  ∧ (inOpenStates c.state ∨ c.state = BS_CLOSE → tmStopped c.connect_retry_timer)
  ∧ (¬ tmStopped c.hold_timer → inOpenStates c.state)
  ∧ (skRxAttached c.sk → inOpenStates c.state)

instance (c : bgp_conn) : Decidable (bgp_conn_inv c) := by
  unfold bgp_conn_inv; infer_instance

/-- The peer invariant: both connection slots satisfy the
per-connection invariant. -/
def bgp_inv (p : bgp_proto) : Prop :=
  bgp_conn_inv p.incoming_conn ∧ bgp_conn_inv p.outgoing_conn

instance (p : bgp_proto) : Decidable (bgp_inv p) := by
  unfold bgp_inv; infer_instance

/-- The operations of the session engine, with the event-enabling
conditions of the C code made explicit in `applyOp`: timer hooks fire
only when the timer runs, socket hooks only when a socket is attached,
packet-processing errors only when the receive hook is attached. -/
inductive BgpOp where
  | opError (cid : ConnId) (code subcode : Nat) (data : Option (List Nat)) (len : Int)
  | opStop (subcode : Nat)
  | opShutdown (reconfiguring cf_new : Bool)
  | opHoldTimeout (cid : ConnId)
  | opKeepaliveTimeout (cid : ConnId)
  | opConnectTimeout (cid : ConnId) (ok : Bool)
  | opSockErr (cid : ConnId) (err : Nat)
  | opConnected (cid : ConnId)
  | opIncoming (s : sock)
  | opOpenconfirm (cid : ConnId)
  | opEstablished (cid : ConnId)
  | opRxRestartHold (cid : ConnId)
  | opActive
  | opConnect (ok : Bool)
  | opEnterIdle (cid : ConnId)

open BgpOp

/-- One step of the session engine.  Each arm applies the embedded
operation under the event guard that enables it in the C code; a
disabled event leaves the state unchanged. -/
def applyOp (now : Nat) (op : BgpOp) (p : bgp_proto) : bgp_proto :=
  match op with
  | opError cid code subcode data len =>
    if skRxAttached (p.getConn cid).sk then bgp_error now p cid code subcode data len else p
  | opStop s => bgp_stop now p s
  | opShutdown r n => bgp_shutdown now p r n
  | opHoldTimeout cid =>
    if ¬ tmStopped (p.getConn cid).hold_timer then bgp_hold_timeout now p cid else p
  | opKeepaliveTimeout cid =>
    if ¬ tmStopped (p.getConn cid).keepalive_timer then bgp_keepalive_timeout p cid else p
  | opConnectTimeout cid ok =>
    if ¬ tmStopped (p.getConn cid).connect_retry_timer then
      bgp_connect_timeout now p cid ok
    else p
  | opSockErr cid err =>
    if (p.getConn cid).sk ≠ none then bgp_sock_err now p cid err else p
  | opConnected cid =>
    if (p.getConn cid).state = BS_CONNECT ∧ (p.getConn cid).sk ≠ none then
      bgp_connected p cid
    else p
  | opIncoming s =>
    if p.cf.remote_ip = s.daddr ∧ s.rx_hook = false then
      (bgp_incoming_connection_peer p s).1
    else p
  | opOpenconfirm cid =>
    if (p.getConn cid).state = BS_OPENSENT ∧ skRxAttached (p.getConn cid).sk then
      bgp_conn_enter_openconfirm_state p cid
    else p
  | opEstablished cid =>
    if (p.getConn cid).state = BS_OPENCONFIRM ∧ skRxAttached (p.getConn cid).sk then
      bgp_conn_enter_established_state p cid
    else p
  | opRxRestartHold cid =>
    if skRxAttached (p.getConn cid).sk then bgp_rx_restart_hold p cid else p
  | opActive => bgp_active p
  | opConnect ok => bgp_connect now p ok
  | opEnterIdle cid =>
    if (p.getConn cid).state = BS_CLOSE then bgp_conn_enter_idle_state now p cid else p

theorem tmStopped_map_stop (x : Option timer_st) : tmStopped (x.map tm_stop) := by
  cases x <;> simp [tmStopped, tm_stop]

theorem inOpenStates_ne_close (st : BgpConnState) (h : inOpenStates st) : st ≠ BS_CLOSE := by
  rcases h with h | h | h <;> subst h <;> simp

theorem conn_inv_idle_form (c : bgp_conn) :
    bgp_conn_inv { bgp_close_conn c with state := BS_IDLE } := by
  unfold bgp_conn_inv bgp_close_conn inOpenStates
  simp [tmStopped, skRxAttached, skRxDetachedPresent]

theorem conn_inv_close_form (c0 : bgp_conn) (code subcode n : Nat) (data : Option (List Nat))
    (hsk : c0.sk ≠ none) (hcr : tmStopped c0.connect_retry_timer) :
    bgp_conn_inv
      (bgp_schedule_packet
        { conn_close_transform c0 with
            notify_code := code, notify_subcode := subcode,
            notify_data := data, notify_size := n }
        PKT_NOTIFICATION) := by
  obtain ⟨s0, hs0⟩ : ∃ s0, c0.sk = some s0 := by
    cases hc : c0.sk with
    | none => exact absurd hc hsk
    | some s0 => exact ⟨s0, rfl⟩
  unfold bgp_conn_inv bgp_schedule_packet conn_close_transform inOpenStates
  refine ⟨?_, ?_, ?_, ?_, ?_⟩ <;>
    simp [hs0, hcr, tmStopped_map_stop, skRxAttached, skRxDetachedPresent]

theorem conn_inv_graceful (s : Nat) (c : bgp_conn) (h : bgp_conn_inv c) :
    bgp_conn_inv (graceful_conn_transform s c) := by
  unfold graceful_conn_transform
  cases hst : c.state
  case BS_IDLE | BS_CLOSE => exact h
  case BS_CONNECT | BS_ACTIVE => exact conn_inv_idle_form c
  case BS_OPENSENT | BS_OPENCONFIRM | BS_ESTABLISHED =>
    exact conn_inv_close_form c 6 s 0 none
      (h.2.1 (by simp [inOpenStates, hst]))
      (h.2.2.1 (Or.inl (by simp [inOpenStates, hst])))

theorem bgp_inv_getConn (p : bgp_proto) :
    bgp_inv p ↔ ∀ cid, bgp_conn_inv (p.getConn cid) := by
  constructor
  · intro h cid
    cases cid
    case incoming => exact h.1
    case outgoing => exact h.2
  · intro h
    exact ⟨h ConnId.incoming, h ConnId.outgoing⟩

theorem inv_stop_closed (s : Nat) (p : bgp_proto) (h : bgp_inv p) :
    bgp_inv (bgp_stop_closed s p) := by
  rw [bgp_inv_getConn]
  intro cid
  rw [stop_closed_getConn]
  exact conn_inv_graceful s _ ((bgp_inv_getConn p).mp h cid)

theorem usd_incoming_conn (now : Nat) (p : bgp_proto) :
    (bgp_update_startup_delay now p).incoming_conn = p.incoming_conn := by
  simp only [bgp_update_startup_delay]; split_ifs <;> rfl

theorem usd_outgoing_conn (now : Nat) (p : bgp_proto) :
    (bgp_update_startup_delay now p).outgoing_conn = p.outgoing_conn := by
  simp only [bgp_update_startup_delay]; split_ifs <;> rfl

theorem inv_usd (now : Nat) (p : bgp_proto) (h : bgp_inv p) :
    bgp_inv (bgp_update_startup_delay now p) := by
  unfold bgp_inv at h ⊢
  rw [usd_incoming_conn, usd_outgoing_conn]
  exact h

theorem inv_store (p : bgp_proto) (c : Option ConnId) (cls code : Nat) (h : bgp_inv p) :
    bgp_inv (bgp_store_error p c cls code) := by
  unfold bgp_inv at h ⊢
  rw [store_error_incoming_conn, store_error_outgoing_conn]
  exact h

theorem bgp_error_mid_getConn_other (p : bgp_proto) (cid cid' : ConnId) (code subcode : Nat)
    (data : Option (List Nat)) (len : Int) (hne : cid' ≠ cid) :
    (bgp_error_mid p cid code subcode data len).getConn cid' =
      (if (p.getConn cid).state = BS_ESTABLISHED ∧ p.proto_state = PS_UP then
        graceful_conn_transform 0 (p.getConn cid')
       else p.getConn cid') := by
  unfold bgp_error_mid
  by_cases hest : (p.getConn cid).state = BS_ESTABLISHED
  · by_cases hup : p.proto_state = PS_UP
    · simp only [hest, hup, ite_true, if_true, and_self,
        getConn_updateConn_other _ _ _ _ hne, stop_closed_getConn]
      rw [conn_mk_getConn, getConn_updateConn_other _ _ _ _ hne, store_error_getConn]
    · simp only [hest, hup, ite_true, ite_false, and_false, if_false,
        getConn_updateConn_other _ _ _ _ hne]
      rw [conn_mk_getConn, getConn_updateConn_other _ _ _ _ hne, store_error_getConn]
  · simp only [hest, ite_false, false_and, if_false,
      getConn_updateConn_other _ _ _ _ hne, store_error_getConn]

theorem inv_bgp_error_mid (p : bgp_proto) (cid : ConnId) (code subcode : Nat)
    (data : Option (List Nat)) (len : Int)
    (hinv : bgp_inv p) (hopen : inOpenStates (p.getConn cid).state) :
    bgp_inv (bgp_error_mid p cid code subcode data len) := by
  have hcinv := (bgp_inv_getConn p).mp hinv
  rw [bgp_inv_getConn]
  intro cid'
  by_cases hc : cid' = cid
  · subst hc
    rw [bgp_error_mid_getConn]
    exact conn_inv_close_form _ code subcode _ data
      ((hcinv cid').2.1 hopen) ((hcinv cid').2.2.1 (Or.inl hopen))
  · rw [bgp_error_mid_getConn_other p cid cid' code subcode data len hc]
    split
    · exact conn_inv_graceful 0 _ (hcinv cid')
    · exact hcinv cid'

theorem inv_bgp_error (now : Nat) (p : bgp_proto) (cid : ConnId) (code subcode : Nat)
    (data : Option (List Nat)) (len : Int)
    (hinv : bgp_inv p) (hopen : inOpenStates (p.getConn cid).state) :
    bgp_inv (bgp_error now p cid code subcode data len) := by
  have hcl : (p.getConn cid).state ≠ BS_CLOSE := inOpenStates_ne_close _ hopen
  rw [bgp_error_char now p cid code subcode data len hcl]
  by_cases hc6 : code ≠ 6
  · rw [if_pos hc6]
    exact inv_stop_closed 0 _ (inv_usd now _ (inv_bgp_error_mid p cid code subcode data len hinv hopen))
  · rw [if_neg hc6]
    exact inv_bgp_error_mid p cid code subcode data len hinv hopen

theorem enter_idle_char (now : Nat) (p : bgp_proto) (cid : ConnId) :
    bgp_conn_enter_idle_state now p cid =
      (if (p.getConn cid).state = BS_ESTABLISHED then
        (if p.proto_state = PS_UP then
          bgp_stop_closed 0
            { ev_schedule (p.updateConn cid
                (fun c => { bgp_close_conn c with state := BS_IDLE })) with conn := none }
         else
          { ev_schedule (p.updateConn cid
              (fun c => { bgp_close_conn c with state := BS_IDLE })) with conn := none })
       else
        ev_schedule (p.updateConn cid
          (fun c => { bgp_close_conn c with state := BS_IDLE }))) := by
  unfold bgp_conn_enter_idle_state BGP_FUEL
  rw [exec_idle_step]
  rw [updateConn_updateConn]
  by_cases hest : (p.getConn cid).state = BS_ESTABLISHED
  · rw [if_pos hest, if_pos hest]
    rw [exec_leave_step]
    simp only [ev_schedule_proto_state, updateConn_proto_state]
    by_cases hup : p.proto_state = PS_UP
    · rw [if_pos hup, if_pos hup]
      rw [exec_stop_eq now 25]
    · rw [if_neg hup, if_neg hup]
  · rw [if_neg hest, if_neg hest]

theorem ev_schedule_incoming_conn (p : bgp_proto) :
    (ev_schedule p).incoming_conn = p.incoming_conn := rfl

theorem ev_schedule_outgoing_conn (p : bgp_proto) :
    (ev_schedule p).outgoing_conn = p.outgoing_conn := rfl

theorem inv_idle_form_update (p : bgp_proto) (cid : ConnId) (hinv : bgp_inv p) :
    bgp_inv (ev_schedule (p.updateConn cid
      (fun c => { bgp_close_conn c with state := BS_IDLE }))) := by
  rw [bgp_inv_getConn]
  intro cid'
  rw [ev_schedule_getConn]
  by_cases hc : cid' = cid
  · subst hc
    rw [getConn_updateConn_same]
    exact conn_inv_idle_form _
  · rw [getConn_updateConn_other _ _ _ _ hc]
    exact (bgp_inv_getConn p).mp hinv cid'

theorem inv_conn_mk (p : bgp_proto) (oc : Option ConnId) (h : bgp_inv p) :
    bgp_inv { p with conn := oc } := h

theorem inv_enter_idle (now : Nat) (p : bgp_proto) (cid : ConnId) (hinv : bgp_inv p) :
    bgp_inv (bgp_conn_enter_idle_state now p cid) := by
  rw [enter_idle_char]
  split
  · split
    · exact inv_stop_closed 0 _ (inv_conn_mk _ none (inv_idle_form_update p cid hinv))
    · exact inv_conn_mk _ none (inv_idle_form_update p cid hinv)
  · exact inv_idle_form_update p cid hinv

theorem inv_sock_err (now : Nat) (p : bgp_proto) (cid : ConnId) (err : Nat)
    (hinv : bgp_inv p) : bgp_inv (bgp_sock_err now p cid err) := by
  unfold bgp_sock_err
  exact inv_enter_idle now _ cid (inv_store p (some cid) BE_SOCKET err hinv)

theorem inv_bgp_stop (now : Nat) (p : bgp_proto) (s : Nat) (hinv : bgp_inv p) :
    bgp_inv (bgp_stop now p s) := by
  rw [bgp_stop_eq_closed]
  exact inv_stop_closed s p hinv

theorem inv_shutdown (now : Nat) (p : bgp_proto) (r n : Bool) (hinv : bgp_inv p) :
    bgp_inv (bgp_shutdown now p r n) := by
  unfold bgp_shutdown
  apply inv_bgp_stop
  exact inv_store p none BE_MAN_DOWN 0 hinv

theorem conn_inv_keep_open (c : bgp_conn) (f : bgp_conn → bgp_conn)
    (hopen : inOpenStates c.state) (hinv : bgp_conn_inv c)
    (hstate : (f c).state = c.state) (hsk : (f c).sk = c.sk)
    (hcr : (f c).connect_retry_timer = c.connect_retry_timer) :
    bgp_conn_inv (f c) := by
  unfold bgp_conn_inv
  rw [hstate, hsk, hcr]
  refine ⟨?_, hinv.2.1, hinv.2.2.1, fun _ => hopen, fun _ => hopen⟩
  intro hcl
  exact absurd hcl (inOpenStates_ne_close _ hopen)

theorem inv_restart_hold (p : bgp_proto) (cid : ConnId) (f : Option timer_st → Option timer_st)
    (hopen : inOpenStates (p.getConn cid).state) (hinv : bgp_inv p) :
    bgp_inv (p.updateConn cid (fun c => { c with hold_timer := f c.hold_timer })) := by
  rw [bgp_inv_getConn]
  intro cid'
  by_cases hc : cid' = cid
  · subst hc
    rw [getConn_updateConn_same]
    exact conn_inv_keep_open _
      (fun c => { c with hold_timer := f c.hold_timer }) hopen
      ((bgp_inv_getConn p).mp hinv _) rfl rfl rfl
  · rw [getConn_updateConn_other _ _ _ _ hc]
    exact (bgp_inv_getConn p).mp hinv cid'

theorem inv_hold_timeout (now : Nat) (p : bgp_proto) (cid : ConnId)
    (hinv : bgp_inv p) (harm : ¬ tmStopped (p.getConn cid).hold_timer) :
    bgp_inv (bgp_hold_timeout now p cid) := by
  have hopen : inOpenStates (p.getConn cid).state :=
    ((bgp_inv_getConn p).mp hinv cid).2.2.2.1 harm
  unfold bgp_hold_timeout
  cases hsk : (p.getConn cid).sk
  case none => exact inv_bgp_error now p cid 4 0 none 0 hinv hopen
  case some s0 =>
    dsimp only
    by_cases hrx : s0.rx_ready > 0
    · rw [if_pos hrx]
      exact inv_restart_hold p cid (Option.map (fun t => bgp_start_timer t 10)) hopen hinv
    · rw [if_neg hrx]
      exact inv_bgp_error now p cid 4 0 none 0 hinv hopen

theorem conn_inv_schedule (c : bgp_conn) (t : Nat) (h : bgp_conn_inv c) :
    bgp_conn_inv (bgp_schedule_packet c t) := by
  unfold bgp_conn_inv at h ⊢
  simp only [bgp_schedule_packet]
  exact h

theorem inv_keepalive_timeout (p : bgp_proto) (cid : ConnId) (hinv : bgp_inv p) :
    bgp_inv (bgp_keepalive_timeout p cid) := by
  unfold bgp_keepalive_timeout
  rw [bgp_inv_getConn]
  intro cid'
  by_cases hc : cid' = cid
  · subst hc
    rw [getConn_updateConn_same]
    exact conn_inv_schedule _ _ ((bgp_inv_getConn p).mp hinv cid')
  · rw [getConn_updateConn_other _ _ _ _ hc]
    exact (bgp_inv_getConn p).mp hinv cid'

theorem inv_send_open (p : bgp_proto) (cid : ConnId) (hsk : (p.getConn cid).sk ≠ none)
    (hinv : bgp_inv p) : bgp_inv (bgp_send_open p cid) := by
  obtain ⟨s0, hs0⟩ : ∃ s0, (p.getConn cid).sk = some s0 := by
    cases hc : (p.getConn cid).sk with
    | none => exact absurd hc hsk
    | some s0 => exact ⟨s0, rfl⟩
  rw [bgp_inv_getConn]
  intro cid'
  unfold bgp_send_open
  by_cases hc : cid' = cid
  · subst hc
    simp only [getConn_updateConn_same, hs0]
    unfold bgp_conn_inv inOpenStates bgp_schedule_packet
    refine ⟨?_, ?_, ?_, ?_, ?_⟩ <;>
      simp [tmStopped_map_stop, hs0, skRxAttached, skRxDetachedPresent]
  · simp only [getConn_updateConn_other _ _ _ _ hc]
    exact (bgp_inv_getConn p).mp hinv cid'

theorem inv_incoming_peer (p : bgp_proto) (s : sock) (hrx : s.rx_hook = false)
    (hinv : bgp_inv p) : bgp_inv (bgp_incoming_connection_peer p s).1 := by
  unfold bgp_incoming_connection_peer
  by_cases hacc : bgp_incoming_acc p
  · rw [if_pos hacc]
    dsimp only
    apply inv_send_open
    · simp [getConn_updateConn_same, bgp_setup_sk, bgp_setup_conn]
    · rw [bgp_inv_getConn]
      intro cid'
      by_cases hc : cid' = ConnId.incoming
      · subst hc
        simp only [getConn_updateConn_same]
        unfold bgp_conn_inv bgp_setup_sk bgp_setup_conn inOpenStates
        refine ⟨?_, ?_, ?_, ?_, ?_⟩ <;>
          simp [tmStopped, tm_new, skRxAttached, skRxDetachedPresent, hrx]
      · simp only [getConn_updateConn_other _ _ _ _ hc]
        exact (bgp_inv_getConn p).mp hinv cid'
  · rw [if_neg hacc]
    exact hinv

theorem conn_inv_set_open_state (c : bgp_conn) (st : BgpConnState)
    (h : bgp_conn_inv c) (hpre : inOpenStates c.state) (hst : inOpenStates st) :
    bgp_conn_inv { c with state := st } := by
  unfold bgp_conn_inv
  refine ⟨?_, ?_, ?_, ?_, ?_⟩ <;> simp only
  · intro hcl
    exact absurd hcl (inOpenStates_ne_close _ hst)
  · intro _
    exact h.2.1 hpre
  · intro _
    exact h.2.2.1 (Or.inl hpre)
  · intro _
    exact hst
  · intro _
    exact hst

theorem inv_openconfirm (p : bgp_proto) (cid : ConnId)
    (hpre : (p.getConn cid).state = BS_OPENSENT) (hinv : bgp_inv p) :
    bgp_inv (bgp_conn_enter_openconfirm_state p cid) := by
  rw [bgp_inv_getConn]
  intro cid'
  unfold bgp_conn_enter_openconfirm_state
  by_cases hc : cid' = cid
  · subst hc
    rw [getConn_updateConn_same]
    exact conn_inv_set_open_state _ _ ((bgp_inv_getConn p).mp hinv _)
      (by simp [inOpenStates, hpre]) (by simp [inOpenStates])
  · rw [getConn_updateConn_other _ _ _ _ hc]
    exact (bgp_inv_getConn p).mp hinv cid'

theorem est_mk_getConn (p : bgp_proto) (oc : Option ConnId) (a b : Nat) (cid : ConnId) :
    bgp_proto.getConn
      { p with conn := oc, last_error_class := a, last_error_code := b } cid =
      p.getConn cid := by
  cases cid <;> rfl

theorem inv_established (p : bgp_proto) (cid : ConnId)
    (hpre : (p.getConn cid).state = BS_OPENCONFIRM) (hinv : bgp_inv p) :
    bgp_inv (bgp_conn_enter_established_state p cid) := by
  rw [bgp_inv_getConn]
  intro cid'
  unfold bgp_conn_enter_established_state
  rw [notify_state_getConn]
  by_cases hc : cid' = cid
  · subst hc
    rw [getConn_updateConn_same]
    refine conn_inv_set_open_state _ _ ?_ ?_ ?_
    · rw [est_mk_getConn]
      exact (bgp_inv_getConn p).mp hinv _
    · rw [est_mk_getConn]
      simp [inOpenStates, hpre]
    · simp [inOpenStates]
  · rw [getConn_updateConn_other _ _ _ _ hc, est_mk_getConn]
    exact (bgp_inv_getConn p).mp hinv cid'

theorem inv_active (p : bgp_proto) (hinv : bgp_inv p) : bgp_inv (bgp_active p) := by
  rw [bgp_inv_getConn]
  intro cid'
  unfold bgp_active
  by_cases hc : cid' = ConnId.outgoing
  · subst hc
    simp only [getConn_updateConn_same]
    unfold bgp_conn_inv bgp_setup_conn inOpenStates
    refine ⟨?_, ?_, ?_, ?_, ?_⟩ <;>
      simp [tmStopped, tm_new, skRxAttached, skRxDetachedPresent]
  · simp only [getConn_updateConn_other _ _ _ _ hc]
    exact (bgp_inv_getConn p).mp hinv cid'

theorem inv_connect (now : Nat) (p : bgp_proto) (ok : Bool) (hinv : bgp_inv p) :
    bgp_inv (bgp_connect now p ok) := by
  unfold bgp_connect
  have hmid : ∀ q : bgp_proto, bgp_inv q →
      bgp_inv (((q.updateConn ConnId.outgoing bgp_setup_conn).updateConn ConnId.outgoing
        (fun c => bgp_setup_sk c
          { daddr := p.cf.remote_ip, rx_hook := false, tx_hook := true, rx_ready := 0,
            ttl := if p.cf.multihop ≠ 0 then p.cf.multihop else 1 })).updateConn
        ConnId.outgoing (fun c => { c with state := BS_CONNECT })) := by
    intro q hq
    rw [bgp_inv_getConn]
    intro cid'
    by_cases hc : cid' = ConnId.outgoing
    · subst hc
      simp only [getConn_updateConn_same]
      unfold bgp_conn_inv bgp_setup_conn bgp_setup_sk inOpenStates
      refine ⟨?_, ?_, ?_, ?_, ?_⟩ <;>
        simp [tmStopped, tm_new, skRxAttached, skRxDetachedPresent]
    · simp only [getConn_updateConn_other _ _ _ _ hc]
      exact (bgp_inv_getConn q).mp hq cid'
  by_cases hok : ok = true
  · rw [if_pos hok]
    rw [bgp_inv_getConn]
    intro cid'
    by_cases hc : cid' = ConnId.outgoing
    · subst hc
      simp only [getConn_updateConn_same]
      unfold bgp_conn_inv bgp_setup_conn bgp_setup_sk inOpenStates
      refine ⟨?_, ?_, ?_, ?_, ?_⟩ <;>
        simp [tmStopped, tm_new, skRxAttached, skRxDetachedPresent]
    · simp only [getConn_updateConn_other _ _ _ _ hc]
      exact (bgp_inv_getConn p).mp hinv cid'
  · rw [if_neg hok]
    exact inv_sock_err now _ ConnId.outgoing 0 (hmid p hinv)

theorem inv_close_conn_update (p : bgp_proto) (cid : ConnId)
    (hst : ¬ (inOpenStates (p.getConn cid).state ∨ (p.getConn cid).state = BS_CLOSE))
    (hinv : bgp_inv p) : bgp_inv (p.updateConn cid bgp_close_conn) := by
  rw [bgp_inv_getConn]
  intro cid'
  by_cases hc : cid' = cid
  · subst hc
    rw [getConn_updateConn_same]
    unfold bgp_conn_inv bgp_close_conn
    refine ⟨?_, ?_, ?_, ?_, ?_⟩ <;> simp only
    · intro hcl
      exact absurd (Or.inr hcl) hst
    · intro hopen
      exact absurd (Or.inl hopen) hst
    · intro _
      exact trivial
    · intro hh
      exact absurd (by simp [tmStopped]) hh
    · intro hh
      exact absurd hh (by simp [skRxAttached])
  · rw [getConn_updateConn_other _ _ _ _ hc]
    exact (bgp_inv_getConn p).mp hinv cid'

theorem inv_connect_timeout (now : Nat) (p : bgp_proto) (cid : ConnId) (ok : Bool)
    (harm : ¬ tmStopped (p.getConn cid).connect_retry_timer)
    (hinv : bgp_inv p) : bgp_inv (bgp_connect_timeout now p cid ok) := by
  have hst : ¬ (inOpenStates (p.getConn cid).state ∨ (p.getConn cid).state = BS_CLOSE) := by
    intro hh
    exact harm (((bgp_inv_getConn p).mp hinv cid).2.2.1 hh)
  unfold bgp_connect_timeout
  split
  · exact inv_connect now _ ok (inv_close_conn_update p cid hst hinv)
  · exact inv_enter_idle now p cid hinv

/-- C6: for every operation of the session engine, the close-state
invariant is preserved: after any step from a state satisfying
`bgp_inv`, every connection in Close has its hold and keepalive
timers stopped and its socket still present with the receive hook
detached.  `bgp_conn_enter_close_state` (via `conn_close_transform`)
is the only operation that sets a connection's state to Close, and it
establishes this condition; every other operation either leaves a
Close connection untouched or moves it out of Close, and in
particular no operation restarts the hold or keepalive timer of a
connection that remains in Close (timer hooks only fire on running
timers and receive processing only on attached hooks, both excluded
in Close by the invariant). -/
theorem bgp_close_state_inv (now : Nat) (op : BgpOp) (p : bgp_proto) (hinv : bgp_inv p) :
    bgp_inv (applyOp now op p)
    ∧ ∀ cid, ((applyOp now op p).getConn cid).state = BS_CLOSE →
        tmStopped ((applyOp now op p).getConn cid).hold_timer
        ∧ tmStopped ((applyOp now op p).getConn cid).keepalive_timer
        ∧ skRxDetachedPresent ((applyOp now op p).getConn cid).sk := by
  have main : bgp_inv (applyOp now op p) := by
    cases op with
    | opError cid code subcode data len =>
      simp only [applyOp]
      split
      case isTrue hg =>
        exact inv_bgp_error now p cid code subcode data len hinv
          (((bgp_inv_getConn p).mp hinv cid).2.2.2.2 hg)
      case isFalse _ => exact hinv
    | opStop s => exact inv_bgp_stop now p s hinv
    | opShutdown r n => exact inv_shutdown now p r n hinv
    | opHoldTimeout cid =>
      simp only [applyOp]
      split
      case isTrue hg => exact inv_hold_timeout now p cid hinv hg
      case isFalse _ => exact hinv
    | opKeepaliveTimeout cid =>
      simp only [applyOp]
      split
      case isTrue _ => exact inv_keepalive_timeout p cid hinv
      case isFalse _ => exact hinv
    | opConnectTimeout cid ok =>
      simp only [applyOp]
      split
      case isTrue hg => exact inv_connect_timeout now p cid ok hg hinv
      case isFalse _ => exact hinv
    | opSockErr cid err =>
      simp only [applyOp]
      split
      case isTrue _ => exact inv_sock_err now p cid err hinv
      case isFalse _ => exact hinv
    | opConnected cid =>
      simp only [applyOp]
      split
      case isTrue hg =>
        unfold bgp_connected
        exact inv_send_open p cid hg.2 hinv
      case isFalse _ => exact hinv
    | opIncoming s =>
      simp only [applyOp]
      split
      case isTrue hg => exact inv_incoming_peer p s hg.2 hinv
      case isFalse _ => exact hinv
    | opOpenconfirm cid =>
      simp only [applyOp]
      split
      case isTrue hg => exact inv_openconfirm p cid hg.1 hinv
      case isFalse _ => exact hinv
    | opEstablished cid =>
      simp only [applyOp]
      split
      case isTrue hg => exact inv_established p cid hg.1 hinv
      case isFalse _ => exact hinv
    | opRxRestartHold cid =>
      simp only [applyOp]
      split
      case isTrue hg =>
        unfold bgp_rx_restart_hold
        exact inv_restart_hold p cid
          (Option.map (fun t => bgp_start_timer t p.cf.hold_time))
          (((bgp_inv_getConn p).mp hinv cid).2.2.2.2 hg) hinv
      case isFalse _ => exact hinv
    | opActive => exact inv_active p hinv
    | opConnect ok => exact inv_connect now p ok hinv
    | opEnterIdle cid =>
      simp only [applyOp]
      split
      case isTrue _ => exact inv_enter_idle now p cid hinv
      case isFalse _ => exact hinv
  refine ⟨main, ?_⟩
  intro cid hcl
  exact ((bgp_inv_getConn _).mp main cid).1 hcl

/-- C6 (witness): the hold timeout on the Established peer `exC5`
(whose state satisfies the invariant) preserves the invariant. -/
theorem bgp_close_state_inv_witness :
    bgp_inv (applyOp 0 (opHoldTimeout ConnId.outgoing) exC5)
    ∧ ∀ cid, ((applyOp 0 (opHoldTimeout ConnId.outgoing) exC5).getConn cid).state = BS_CLOSE →
        tmStopped ((applyOp 0 (opHoldTimeout ConnId.outgoing) exC5).getConn cid).hold_timer
        ∧ tmStopped
            ((applyOp 0 (opHoldTimeout ConnId.outgoing) exC5).getConn cid).keepalive_timer
        ∧ skRxDetachedPresent
            ((applyOp 0 (opHoldTimeout ConnId.outgoing) exC5).getConn cid).sk :=
  bgp_close_state_inv 0 (opHoldTimeout ConnId.outgoing) exC5 (by decide)
